import Mathlib

/-!
Verification development for the tesselate repository.

The repository contains two generations of the triangle-mesh model:

* the Three.js generation (`src/js/Triangle.js`, `src/js/TriangleManager.js`),
  embedded below in namespace `TM`;
* the live WebGL rewrite (`src/js/app.js`), embedded in namespace `App`.

Modelling conventions, used consistently below:

* JavaScript numbers are modelled as real numbers (`ℝ`).  `Math.sqrt` is
  `Real.sqrt`.  Note one divergence: in JavaScript `0/0 = NaN` while in Lean
  `x / 0 = 0`; every theorem that touches a division-by-zero path states only
  facts (mutation, registration, counts) that are independent of the numeric
  value produced there, and `THREE.Vector3.normalize` guards a zero length
  (dividing by `1`), so for it the two semantics agree (both give the zero
  vector).
* Object references are modelled as indices into the manager's triangle list
  (triangles are only ever appended, so indices are stable identities).
* Rendering-only state (colors, WebGL buffers, scene graph, debug spheres,
  `instanceScales`/`instanceOffsets`) is omitted: no claim concerns it.
* Edge/side arguments are `Fin 3`; all call sites in the source pass 0..2.
-/

noncomputable section

open scoped Classical

/-- Modify the element at index `i` of a list in place, as JavaScript field
assignment on `array[i]` does; out-of-range indices leave the list unchanged
(no call site is out of range). -/
def listModify {α : Type} (l : List α) (i : ℕ) (f : α → α) : List α :=
  match l[i]? with
  | some a => l.set i (f a)
  | none => l

namespace TM

/-- A `THREE.Vector3`: three real coordinates. -/
structure V3 where
  x : ℝ
  y : ℝ
  z : ℝ

namespace V3

/-- Vector subtraction, `new THREE.Vector3().subVectors(a, b)`. -/
def sub (a b : V3) : V3 := ⟨a.x - b.x, a.y - b.y, a.z - b.z⟩

/-- Vector addition, `new THREE.Vector3().addVectors(a, b)`. -/
def add (a b : V3) : V3 := ⟨a.x + b.x, a.y + b.y, a.z + b.z⟩

/-- Scalar multiplication, `v.multiplyScalar(s)`. -/
def smul (s : ℝ) (v : V3) : V3 := ⟨s * v.x, s * v.y, s * v.z⟩

/-- Euclidean length, `v.length()`. -/
def length (v : V3) : ℝ := Real.sqrt (v.x ^ 2 + v.y ^ 2 + v.z ^ 2)

/-- `v.normalize()`.  THREE divides by `length() || 1`, so the zero vector
normalizes to itself; Lean division by zero yields `0`, giving the same
result, so a plain division is a faithful model on every input. -/
def normalize (v : V3) : V3 := ⟨v.x / v.length, v.y / v.length, v.z / v.length⟩

end V3

/-- The vertex-pair tolerance of `TriangleManager.verticesEqual`
(`epsilon = 0.0001`). -/
def epsTM : ℝ := 1 / 10000

/-- `TriangleManager.verticesEqual(v1, v2)`: componentwise comparison within
`epsilon = 0.0001`. -/
def verticesEqual (v1 v2 : V3) : Prop :=
  |v1.x - v2.x| < epsTM ∧ |v1.y - v2.y| < epsTM ∧ |v1.z - v2.z| < epsTM

/-- The third vertex computed by `Triangle.makeEquilateral`: midpoint of the
first side plus the (fixed, counterclockwise) perpendicular of `v0→v1`
scaled to the equilateral height `sideLength·√3/2`. -/
def equilThirdVertex (v0 v1 : V3) : V3 :=
  let v0v1 : V3 := V3.sub v1 v0
  let sideLength : ℝ := v0v1.length
  let perpendicular : V3 := V3.normalize ⟨-v0v1.y, v0v1.x, 0⟩
  let height : ℝ := sideLength * Real.sqrt 3 / 2
  let scaled : V3 := V3.smul height perpendicular
  let midpoint : V3 := V3.smul 0.5 (V3.add v0 v1)
  V3.add midpoint scaled

/-- `Triangle.makeEquilateral(vertices)`: keeps the first two vertices and
recomputes the third; the supplied third vertex is ignored. -/
def makeEquilateral (v0 v1 _v2 : V3) : V3 × V3 × V3 :=
  (v0, v1, equilThirdVertex v0 v1)

/-- A `Triangle` of `Triangle.js`.  Relationship slots hold indices into the
manager's `triangles` list (object references in the source). -/
structure Triangle where
  v0 : V3
  v1 : V3
  v2 : V3
  parent : Option ℕ
  side : Option (Fin 3)
  children : Fin 3 → Option ℕ
  innerTriangles : Fin 3 → Option ℕ
  outerTriangles : Fin 3 → Option ℕ
  neighbors : Fin 3 → Option ℕ
  selected : Bool
  focused : Bool
  center : V3

/-- Vertex access `this.vertices[i]`. -/
def Triangle.vertex (t : Triangle) (i : Fin 3) : V3 :=
  if i = 0 then t.v0 else if i = 1 then t.v1 else t.v2

/-- The `Triangle` constructor: normalizes the vertices through
`makeEquilateral`, then computes the center as the arithmetic mean of the
(normalized) vertices.  Relationship slots start empty, flags false. -/
def Triangle.make (a b c : V3) (parent : Option ℕ) (side : Option (Fin 3)) :
    Triangle :=
  let vs := makeEquilateral a b c
  { v0 := vs.1
    v1 := vs.2.1
    v2 := vs.2.2
    parent := parent
    side := side
    children := fun _ => none
    innerTriangles := fun _ => none
    outerTriangles := fun _ => none
    neighbors := fun _ => none
    selected := false
    focused := false
    center := ⟨(vs.1.x + vs.2.1.x + vs.2.2.x) / 3,
               (vs.1.y + vs.2.1.y + vs.2.2.y) / 3,
               (vs.1.z + vs.2.1.z + vs.2.2.z) / 3⟩ }

/-- `Triangle.getAdjacentTriangleVertices(side)`: the two shared-edge
vertices in order, then the reflection of the opposite vertex through the
midpoint of the shared edge. -/
def getAdjacentTriangleVertices (t : Triangle) (side : Fin 3) :
    V3 × V3 × V3 :=
  let sharedVertex1 : V3 := if side = 0 then t.v0 else if side = 1 then t.v1 else t.v2
  let sharedVertex2 : V3 := if side = 0 then t.v1 else if side = 1 then t.v2 else t.v0
  let oppositeVertex : V3 := if side = 0 then t.v2 else if side = 1 then t.v0 else t.v1
  let midpoint : V3 := V3.smul 0.5 (V3.add sharedVertex1 sharedVertex2)
  let toMidpoint : V3 := V3.sub midpoint oppositeVertex
  let newVertex : V3 := V3.add oppositeVertex (V3.smul 2 toMidpoint)
  (sharedVertex1, sharedVertex2, newVertex)

/-- `Triangle.getInnerTriangleVertices(side)`: an edge vertex, the center,
then the other edge vertex. -/
def getInnerTriangleVertices (t : Triangle) (side : Fin 3) : V3 × V3 × V3 :=
  (t.vertex side, t.center, t.vertex (side + 1))

/-- `Triangle.getOuterTriangleVertices(side)`: both edge vertices, then the
point obtained by pushing the edge midpoint away from the center to the
equilateral height. -/
def getOuterTriangleVertices (t : Triangle) (side : Fin 3) : V3 × V3 × V3 :=
  let v1 : V3 := t.vertex side
  let v2 : V3 := t.vertex (side + 1)
  let midpoint : V3 := V3.smul 0.5 (V3.add v1 v2)
  let centerToMid : V3 := V3.sub midpoint t.center
  let sideLength : ℝ := (V3.sub v2 v1).length
  let scaleFactor : ℝ := sideLength * Real.sqrt 3 / 2 / centerToMid.length
  let newVertex : V3 := V3.add midpoint (V3.smul scaleFactor centerToMid)
  (v1, v2, newVertex)

/-- The inner loop body of `TriangleManager.findAdjacentSide`: how many of
`t2`'s three vertices match either endpoint of the given edge. -/
def sharedCount (t2 : Triangle) (e1 e2 : V3) : ℕ :=
  (if verticesEqual t2.v0 e1 ∨ verticesEqual t2.v0 e2 then 1 else 0) +
  (if verticesEqual t2.v1 e1 ∨ verticesEqual t2.v1 e2 then 1 else 0) +
  (if verticesEqual t2.v2 e1 ∨ verticesEqual t2.v2 e2 then 1 else 0)

/-- `TriangleManager.findAdjacentSide(triangle1, triangle2)`: the first side
of `triangle1` (scanning 0, 1, 2) both of whose endpoints occur among
`triangle2`'s vertices, or `none`. -/
def findAdjacentSide (t1 t2 : Triangle) : Option (Fin 3) :=
  if sharedCount t2 (t1.vertex 0) (t1.vertex 1) = 2 then some 0
  else if sharedCount t2 (t1.vertex 1) (t1.vertex 2) = 2 then some 1
  else if sharedCount t2 (t1.vertex 2) (t1.vertex 0) = 2 then some 2
  else none

/-- The mutable state of a `TriangleManager` (the `scene` is rendering-only
and omitted). -/
structure State where
  triangles : List Triangle
  focusedTriangle : Option ℕ
  selectedTriangles : List ℕ

/-- `TriangleManager.addTriangle(triangle)`: append to the collection
(`scene.add` is rendering-only). -/
def addTriangle (st : State) (t : Triangle) : State :=
  { st with triangles := st.triangles ++ [t] }

/-- `TriangleManager.setFocusedTriangle(triangle)`: clear the `focused` flag
of the previously focused triangle, move the cursor, set the flag on the new
one. -/
def setFocusedTriangle (st : State) (idx : Option ℕ) : State :=
  let ts1 : List Triangle :=
    match st.focusedTriangle with
    | some f => listModify st.triangles f (fun t => { t with focused := false })
    | none => st.triangles
  let ts2 : List Triangle :=
    match idx with
    | some i => listModify ts1 i (fun t => { t with focused := true })
    | none => ts1
  { st with triangles := ts2, focusedTriangle := idx }

/-- `TriangleManager.createInitialTriangle()` applied to the freshly
constructed manager: the seed triangle (side 1.5, centered at the origin),
added and focused. -/
def createInitialTriangle : State :=
  let size : ℝ := 1.5
  let height : ℝ := size * Real.sqrt 3 / 2
  let t := Triangle.make ⟨-size / 2, -height / 3, 0⟩ ⟨size / 2, -height / 3, 0⟩
    ⟨0, height * 2 / 3, 0⟩ none none
  setFocusedTriangle (addTriangle ⟨[], none, []⟩ t) (some 0)

/-- `TriangleManager.createAdjacentTriangle(triangle, side)`.  Reuses the
existing neighbor when present; otherwise constructs the new triangle,
appends it, links `triangle.neighbors[side]`, looks for the reciprocal side
on the new triangle and links it back when found, and focuses the result.
Returns the resulting triangle (as its index). -/
def createAdjacentTriangle (st : State) (tIdx : ℕ) (side : Fin 3) :
    Option ℕ × State :=
  match st.triangles[tIdx]? with
  | none => (none, st)
  | some t =>
    match t.neighbors side with
    | some existingIdx => (some existingIdx, setFocusedTriangle st (some existingIdx))
    | none =>
      let vs := getAdjacentTriangleVertices t side
      let newTriangle := Triangle.make vs.1 vs.2.1 vs.2.2 (some tIdx) (some side)
      let newIdx := st.triangles.length
      let st1 := addTriangle st newTriangle
      let ts2 := listModify st1.triangles tIdx
        (fun tr => { tr with neighbors := Function.update tr.neighbors side (some newIdx) })
      let st2 := { st1 with triangles := ts2 }
      let st3 :=
        match findAdjacentSide newTriangle t with
        | some newSide =>
          let ts3 := listModify st2.triangles newIdx
            (fun tr => { tr with neighbors := Function.update tr.neighbors newSide (some tIdx) })
          { st2 with triangles := ts3 }
        | none => st2
      (some newIdx, setFocusedTriangle st3 (some newIdx))

/-- `TriangleManager.createInnerTriangle(triangle, side)`: reuse rule on
`innerTriangles[side]`, otherwise construct from
`getInnerTriangleVertices`, append, link the slot, focus. -/
def createInnerTriangle (st : State) (tIdx : ℕ) (side : Fin 3) :
    Option ℕ × State :=
  match st.triangles[tIdx]? with
  | none => (none, st)
  | some t =>
    match t.innerTriangles side with
    | some existingIdx => (some existingIdx, setFocusedTriangle st (some existingIdx))
    | none =>
      let vs := getInnerTriangleVertices t side
      let newTriangle := Triangle.make vs.1 vs.2.1 vs.2.2 (some tIdx) (some side)
      let newIdx := st.triangles.length
      let st1 := addTriangle st newTriangle
      let ts2 := listModify st1.triangles tIdx
        (fun tr => { tr with innerTriangles := Function.update tr.innerTriangles side (some newIdx) })
      let st2 := { st1 with triangles := ts2 }
      (some newIdx, setFocusedTriangle st2 (some newIdx))

/-- `TriangleManager.createOuterTriangle(triangle, side)`: reuse rule on
`outerTriangles[side]`, otherwise construct from
`getOuterTriangleVertices`, append, link the slot, focus. -/
def createOuterTriangle (st : State) (tIdx : ℕ) (side : Fin 3) :
    Option ℕ × State :=
  match st.triangles[tIdx]? with
  | none => (none, st)
  | some t =>
    match t.outerTriangles side with
    | some existingIdx => (some existingIdx, setFocusedTriangle st (some existingIdx))
    | none =>
      let vs := getOuterTriangleVertices t side
      let newTriangle := Triangle.make vs.1 vs.2.1 vs.2.2 (some tIdx) (some side)
      let newIdx := st.triangles.length
      let st1 := addTriangle st newTriangle
      let ts2 := listModify st1.triangles tIdx
        (fun tr => { tr with outerTriangles := Function.update tr.outerTriangles side (some newIdx) })
      let st2 := { st1 with triangles := ts2 }
      (some newIdx, setFocusedTriangle st2 (some newIdx))

/-- `TriangleManager.moveToAdjacentTriangle(side)`: follow the focused
triangle's neighbor link when present, otherwise do nothing.  Never creates
a triangle. -/
def moveToAdjacentTriangle (st : State) (side : Fin 3) : Option ℕ × State :=
  match st.focusedTriangle with
  | none => (none, st)
  | some f =>
    match st.triangles[f]? with
    | none => (none, st)
    | some t =>
      match t.neighbors side with
      | some n => (some n, setFocusedTriangle st (some n))
      | none => (none, st)

end TM

namespace App

/-- `MAX_TRIANGLES` of `app.js`. -/
def MAX_TRIANGLES : ℕ := 10000

/-- `TRIANGLE_SIZE` of `app.js`. -/
def TRIANGLE_SIZE : ℝ := 0.3

/-- The epsilon used by the reciprocal-side matching loop of
`createAdjacentTriangle` in `app.js` (`0.001`). -/
def epsApp : ℝ := 1 / 1000

/-- The `Triangle` class of `app.js`.  The flat vertex array
`[x1,y1, x2,y2, x3,y3]` is modelled as fields `v0 .. v5`; relationship slots
hold indices into the global `triangles` list (object references in the
source); the derived `color` is rendering-only and omitted. -/
structure Tri where
  id : ℕ
  v0 : ℝ
  v1 : ℝ
  v2 : ℝ
  v3 : ℝ
  v4 : ℝ
  v5 : ℝ
  parent : Option ℕ
  parentSide : Option (Fin 3)
  children : Fin 3 → Option ℕ
  neighbors : Fin 3 → Option ℕ
  innerTriangles : Fin 3 → Option ℕ
  outerTriangles : Fin 3 → Option ℕ
  cx : ℝ
  cy : ℝ
  selected : Bool
  focused : Bool

/-- The `Triangle` constructor of `app.js`: stores the six vertex
coordinates verbatim (no normalization), computes the center, starts with
empty relationship slots and cleared flags. -/
def Tri.make (id : ℕ) (v0 v1 v2 v3 v4 v5 : ℝ) (parent : Option ℕ)
    (parentSide : Option (Fin 3)) : Tri :=
  { id := id
    v0 := v0, v1 := v1, v2 := v2, v3 := v3, v4 := v4, v5 := v5
    parent := parent
    parentSide := parentSide
    children := fun _ => none
    neighbors := fun _ => none
    innerTriangles := fun _ => none
    outerTriangles := fun _ => none
    cx := (v0 + v2 + v4) / 3
    cy := (v1 + v3 + v5) / 3
    selected := false
    focused := false }

/-- `Triangle.getSide(index)`: the two endpoints (four coordinates) of a
side, sides being (v0,v1)-(v2,v3), (v2,v3)-(v4,v5), (v4,v5)-(v0,v1). -/
def getSide (t : Tri) (index : Fin 3) : ℝ × ℝ × ℝ × ℝ :=
  if index = 0 then (t.v0, t.v1, t.v2, t.v3)
  else if index = 1 then (t.v2, t.v3, t.v4, t.v5)
  else (t.v4, t.v5, t.v0, t.v1)

/-- The module-level mutable state of `app.js` (`triangles`,
`selectedTriangleIndex`, `focusedTriangleIndex`, `triangleCount`,
`nextTriangleId`, `dataChanged`; the instance buffers are rendering-only and
omitted). -/
structure State where
  triangles : List Tri
  selectedTriangleIndex : ℤ
  focusedTriangleIndex : ℤ
  triangleCount : ℕ
  nextTriangleId : ℕ
  dataChanged : Bool

/-- The state at module load: empty list, cursors `-1`, counters `0`,
`dataChanged = true`. -/
def initState : State :=
  { triangles := []
    selectedTriangleIndex := -1
    focusedTriangleIndex := -1
    triangleCount := 0
    nextTriangleId := 0
    dataChanged := true }

/-- `focusTriangle(index)`: clear the old focused flag (when the old index
is in range), move the cursor, set the new flag and `dataChanged` (when the
new index is in range). -/
def focusTriangle (st : State) (index : ℤ) : State :=
  let ts1 : List Tri :=
    if 0 ≤ st.focusedTriangleIndex ∧ st.focusedTriangleIndex < (st.triangleCount : ℤ) then
      listModify st.triangles st.focusedTriangleIndex.toNat (fun t => { t with focused := false })
    else st.triangles
  if 0 ≤ index ∧ index < (st.triangleCount : ℤ) then
    let ts2 := listModify ts1 index.toNat (fun t => { t with focused := true })
    { st with triangles := ts2, focusedTriangleIndex := index, dataChanged := true }
  else
    { st with triangles := ts1, focusedTriangleIndex := index }

/-- The clearing loop of `selectTriangle`: `for (i = 0; i < n; i++)
triangles[i].selected = false` (the source guards the store with
`if (triangles[i].selected)`, which has the same effect). -/
def clearSelected : List Tri → ℕ → List Tri
  | [], _ => []
  | _t :: ts, 0 => _t :: ts
  | t :: ts, n + 1 => { t with selected := false } :: clearSelected ts n

/-- `selectTriangle(index, clearExisting)`: optionally clear every selected
flag below `triangleCount`, then (when `index` is in range) select `index`,
record it in `selectedTriangleIndex` and set `dataChanged`. -/
def selectTriangle (st : State) (index : ℤ) (clearExisting : Bool) : State :=
  let ts1 : List Tri :=
    if clearExisting then clearSelected st.triangles st.triangleCount else st.triangles
  if 0 ≤ index ∧ index < (st.triangleCount : ℤ) then
    let ts2 := listModify ts1 index.toNat (fun t => { t with selected := true })
    { st with triangles := ts2, selectedTriangleIndex := index, dataChanged := true }
  else
    { st with triangles := ts1 }

/-- `addTriangle(vertices, parent, parentSide)`: reject at the capacity
ceiling; otherwise construct a `Triangle` with the next id, push it, link
the parent's child slot, auto-focus the very first triangle, bump the count
and set `dataChanged`.  Returns the new triangle, or `none` on rejection. -/
def addTriangle (st : State) (v0 v1 v2 v3 v4 v5 : ℝ) (parent : Option ℕ)
    (parentSide : Option (Fin 3)) : Option Tri × State :=
  if st.triangleCount ≥ MAX_TRIANGLES then (none, st)
  else
    let tri := Tri.make st.nextTriangleId v0 v1 v2 v3 v4 v5 parent parentSide
    let newIdx := st.triangles.length
    let ts1 := st.triangles ++ [tri]
    let ts2 : List Tri :=
      match parent, parentSide with
      | some pIdx, some ps =>
        listModify ts1 pIdx
          (fun p => { p with children := Function.update p.children ps (some newIdx) })
      | _, _ => ts1
    let st1 := { st with triangles := ts2, nextTriangleId := st.nextTriangleId + 1 }
    let st2 := if st.triangleCount = 0 then focusTriangle st1 0 else st1
    (some tri, { st2 with triangleCount := st.triangleCount + 1, dataChanged := true })

/-- `createInitialTriangle()`: the seed triangle of the WebGL
implementation, an (approximately) equilateral triangle around the
origin. -/
def createInitialTriangle (st : State) : Option Tri × State :=
  let size : ℝ := 0.5 * TRIANGLE_SIZE
  addTriangle st (-size) (-size * 0.577) size (-size * 0.577) 0 (size * 1.155)
    none none

/-- The six vertex coordinates computed by `createAdjacentTriangle` in
`app.js`: the chosen side's endpoints plus a third vertex placed at the
equilateral height along the edge perpendicular, oriented away from the
source triangle's center. -/
def adjacentNewVertices (t : Tri) (side : Fin 3) : ℝ × ℝ × ℝ × ℝ × ℝ × ℝ :=
  let sv := getSide t side
  let x1 := sv.1
  let y1 := sv.2.1
  let x2 := sv.2.2.1
  let y2 := sv.2.2.2
  let dx := x2 - x1
  let dy := y2 - y1
  let midX := (x1 + x2) / 2
  let midY := (y1 + y2) / 2
  let toCenterX := t.cx - midX
  let toCenterY := t.cy - midY
  let edgeLen := Real.sqrt (dx * dx + dy * dy)
  let perpX0 := dy / edgeLen
  let perpY0 := -dx / edgeLen
  let flip : Prop := perpX0 * toCenterX + perpY0 * toCenterY > 0
  let perpX := if flip then -perpX0 else perpX0
  let perpY := if flip then -perpY0 else perpY0
  let height := edgeLen * Real.sqrt 3 / 2
  let x3 := (x1 + x2) / 2 + perpX * height
  let y3 := (y1 + y2) / 2 + perpY * height
  (x1, y1, x2, y2, x3, y3)

/-- The matching test of the reciprocal-neighbor loop in
`createAdjacentTriangle`: side `newSide` of the new triangle coincides with
side `side` of the original triangle, in either endpoint order, each
coordinate within `0.001`. -/
def sidesMatch (newTri t : Tri) (newSide side : Fin 3) : Prop :=
  let nsv := getSide newTri newSide
  let osv := getSide t side
  (|nsv.1 - osv.1| < epsApp ∧ |nsv.2.1 - osv.2.1| < epsApp ∧
    |nsv.2.2.1 - osv.2.2.1| < epsApp ∧ |nsv.2.2.2 - osv.2.2.2| < epsApp) ∨
  (|nsv.1 - osv.2.2.1| < epsApp ∧ |nsv.2.1 - osv.2.2.2| < epsApp ∧
    |nsv.2.2.1 - osv.1| < epsApp ∧ |nsv.2.2.2 - osv.2.1| < epsApp)

/-- The reciprocal-neighbor loop of `createAdjacentTriangle`: the first side
of the new triangle (scanning 0, 1, 2, breaking at the first hit) that
matches the shared side, or `none`. -/
def findRecipSide (newTri t : Tri) (side : Fin 3) : Option (Fin 3) :=
  if sidesMatch newTri t 0 side then some 0
  else if sidesMatch newTri t 1 side then some 1
  else if sidesMatch newTri t 2 side then some 2
  else none

/-- `createAdjacentTriangle(triangleIndex, side)` of `app.js`.  Note: unlike
the Three.js manager there is no reuse check on `neighbors[side]` — a new
triangle is built on every call. -/
def createAdjacentTriangle (st : State) (triangleIndex : ℕ) (side : Fin 3) :
    Option Tri × State :=
  match st.triangles[triangleIndex]? with
  | none => (none, st)
  | some t =>
    let nv := adjacentNewVertices t side
    match addTriangle st nv.1 nv.2.1 nv.2.2.1 nv.2.2.2.1 nv.2.2.2.2.1 nv.2.2.2.2.2
      (some triangleIndex) (some side) with
    | (none, st1) => (none, st1)
    | (some newTri, st1) =>
      let newIdx := st.triangles.length
      let ts2 := listModify st1.triangles triangleIndex
        (fun tr => { tr with neighbors := Function.update tr.neighbors side (some newIdx) })
      let st2 := { st1 with triangles := ts2 }
      let st3 :=
        match findRecipSide newTri t side with
        | some newSide =>
          let ts3 := listModify st2.triangles newIdx
            (fun tr => { tr with neighbors := Function.update tr.neighbors newSide (some triangleIndex) })
          { st2 with triangles := ts3 }
        | none => st2
      let st4 := focusTriangle st3 (newIdx : ℤ)
      let st5 := selectTriangle st4 (newIdx : ℤ) true
      (some newTri, st5)

/-- `createInnerTriangle(triangleIndex, side)` of `app.js`: the side's two
endpoints plus the triangle's own center; no reuse check, no equilateral
normalization. -/
def createInnerTriangle (st : State) (triangleIndex : ℕ) (side : Fin 3) :
    Option Tri × State :=
  match st.triangles[triangleIndex]? with
  | none => (none, st)
  | some t =>
    let sv := getSide t side
    match addTriangle st sv.1 sv.2.1 sv.2.2.1 sv.2.2.2 t.cx t.cy
      (some triangleIndex) (some side) with
    | (none, st1) => (none, st1)
    | (some newTri, st1) =>
      let newIdx := st.triangles.length
      let ts2 := listModify st1.triangles triangleIndex
        (fun tr => { tr with innerTriangles := Function.update tr.innerTriangles side (some newIdx) })
      let st2 := { st1 with triangles := ts2 }
      let st3 := focusTriangle st2 (newIdx : ℤ)
      let st4 := selectTriangle st3 (newIdx : ℤ) true
      (some newTri, st4)

/-- The six vertex coordinates computed by `createOuterTriangle` in
`app.js`: the side's endpoints plus the midpoint pushed to the equilateral
height along a fixed-handedness rotation of the edge vector (no
centroid-awareness, unlike `createAdjacentTriangle`). -/
def outerNewVertices (t : Tri) (side : Fin 3) : ℝ × ℝ × ℝ × ℝ × ℝ × ℝ :=
  let sv := getSide t side
  let x1 := sv.1
  let y1 := sv.2.1
  let x2 := sv.2.2.1
  let y2 := sv.2.2.2
  let midX := (x1 + x2) / 2
  let midY := (y1 + y2) / 2
  let outX0 := -(y2 - y1)
  let outY0 := x2 - x1
  let outLen := Real.sqrt (outX0 ^ 2 + outY0 ^ 2)
  let outX := outX0 / outLen
  let outY := outY0 / outLen
  let sideLength := Real.sqrt ((x2 - x1) ^ 2 + (y2 - y1) ^ 2)
  let height := sideLength * Real.sqrt 3 / 2
  (x1, y1, x2, y2, midX + outX * height, midY + outY * height)

/-- `createOuterTriangle(triangleIndex, side)` of `app.js`. -/
def createOuterTriangle (st : State) (triangleIndex : ℕ) (side : Fin 3) :
    Option Tri × State :=
  match st.triangles[triangleIndex]? with
  | none => (none, st)
  | some t =>
    let nv := outerNewVertices t side
    match addTriangle st nv.1 nv.2.1 nv.2.2.1 nv.2.2.2.1 nv.2.2.2.2.1 nv.2.2.2.2.2
      (some triangleIndex) (some side) with
    | (none, st1) => (none, st1)
    | (some newTri, st1) =>
      let newIdx := st.triangles.length
      let ts2 := listModify st1.triangles triangleIndex
        (fun tr => { tr with outerTriangles := Function.update tr.outerTriangles side (some newIdx) })
      let st2 := { st1 with triangles := ts2 }
      let st3 := focusTriangle st2 (newIdx : ℤ)
      let st4 := selectTriangle st3 (newIdx : ℤ) true
      (some newTri, st4)

/-- The state right after `createInitialTriangle()` during initialization:
the seed mesh of the WebGL implementation. -/
def seedState : State := (createInitialTriangle initState).2

/-- A state holding one triangle whose side 0 is degenerate (both endpoints
at the origin): `addTriangle` accepts arbitrary vertex arrays, so such a
triangle is expressible exactly as in the source. -/
def degenState : State := (addTriangle initState 0 0 0 0 1 1 none none).2

/-- The six vertex coordinates of a WebGL triangle, for stating properties
of a stored triangle independently of its mutable flags. -/
def Tri.coords (t : Tri) : ℝ × ℝ × ℝ × ℝ × ℝ × ℝ :=
  (t.v0, t.v1, t.v2, t.v3, t.v4, t.v5)

end App

/-- Euclidean distance between two points of the plane (the metric the
spec's equilateral invariant is phrased in). -/
def distR (x1 y1 x2 y2 : ℝ) : ℝ :=
  Real.sqrt ((x2 - x1) ^ 2 + (y2 - y1) ^ 2)

/-- The spec's equilateral invariant for a flat six-coordinate vertex array:
all three pairwise vertex distances agree within `ε`. -/
def equilWithin6 (ε a b c d e f : ℝ) : Prop :=
  |distR a b c d - distR c d e f| ≤ ε ∧
  |distR c d e f - distR e f a b| ≤ ε ∧
  |distR a b c d - distR e f a b| ≤ ε

namespace TM

/-- Euclidean distance between two `V3` points. -/
def dist3 (a b : V3) : ℝ := (V3.sub b a).length

/-- The spec's equilateral invariant for a vertex triple: all three pairwise
distances agree within `ε`. -/
def equilWithin3 (ε : ℝ) (a b c : V3) : Prop :=
  |dist3 a b - dist3 b c| ≤ ε ∧ |dist3 b c - dist3 c a| ≤ ε ∧
  |dist3 a b - dist3 c a| ≤ ε

end TM

/-- The side-endpoint selection of `Triangle.getSide`, replayed over the
rationals; used to state decidable nondegeneracy hypotheses about a side of
a rational-coordinate triangle. -/
def qSide (a b c d e f : ℚ) (s : Fin 3) : ℚ × ℚ × ℚ × ℚ :=
  match s with
  | 0 => (a, b, c, d)
  | 1 => (c, d, e, f)
  | 2 => (e, f, a, b)

namespace TM

/-- A hand-written triangle with a neighbor on every side (pointing at list
index 1), used to exercise `moveToAdjacentTriangle` on a concrete state. -/
def navTriangleA : Triangle :=
  ⟨⟨0, 0, 0⟩, ⟨1, 0, 0⟩, ⟨0, 1, 0⟩, none, none,
    fun _ => none, fun _ => none, fun _ => none, fun _ => some 1, false, true,
    ⟨0, 0, 0⟩⟩

/-- A hand-written triangle with a neighbor on every side (pointing at list
index 0). -/
def navTriangleB : Triangle :=
  ⟨⟨1, 0, 0⟩, ⟨0, 0, 0⟩, ⟨1, 1, 0⟩, none, none,
    fun _ => none, fun _ => none, fun _ => none, fun _ => some 0, false, false,
    ⟨0, 0, 0⟩⟩

/-- A concrete two-triangle manager state, focused on index 0, with mutual
neighbor links between the two triangles. -/
def navState : State := ⟨[navTriangleA, navTriangleB], some 0, []⟩

/-- The seed triangle as constructed by `createInitialTriangle` (before the
focus flag is set). -/
def seedTriangleRaw : Triangle :=
  Triangle.make ⟨-(1.5 : ℝ) / 2, -(1.5 * Real.sqrt 3 / 2) / 3, 0⟩
    ⟨(1.5 : ℝ) / 2, -(1.5 * Real.sqrt 3 / 2) / 3, 0⟩
    ⟨0, 1.5 * Real.sqrt 3 / 2 * 2 / 3, 0⟩ none none

/-- The seed triangle as stored in the initial manager state (focused). -/
def seedFocusedTriangle : Triangle := { seedTriangleRaw with focused := true }

end TM

theorem length_listModify {α : Type} (l : List α) (i : ℕ) (f : α → α) :
    (listModify l i f).length = l.length := by
  unfold listModify
  cases h : l[i]? <;> simp

theorem getElem?_listModify {α : Type} (l : List α) (i j : ℕ) (f : α → α) :
    (listModify l i f)[j]? = if i = j then Option.map f l[j]? else l[j]? := by
  unfold listModify
  cases h : l[i]? with
  | none =>
    by_cases hij : i = j
    · subst hij
      simp [h]
    · simp [hij]
  | some a =>
    have hlt : i < l.length := by
      rcases List.getElem?_eq_some.mp h with ⟨hl, _⟩
      exact hl
    by_cases hij : i = j
    · subst hij
      simp [List.getElem?_set, hlt, h]
    · simp [List.getElem?_set, hij]

theorem getElem?_map_listModify {α β : Type} (l : List α) (i j : ℕ) (f : α → α)
    (g : α → β) (hfg : ∀ a, g (f a) = g a) :
    ((listModify l i f)[j]?).map g = (l[j]?).map g := by
  rw [getElem?_listModify]
  by_cases hij : i = j
  · subst hij
    rw [if_pos rfl, Option.map_map]
    cases hv : l[i]? with
    | none => rfl
    | some a => simp [Function.comp, hfg]
  · rw [if_neg hij]

theorem getElem?_isSome_iff {α : Type} (l : List α) (i : ℕ) :
    (l[i]?).isSome ↔ i < l.length := by
  constructor
  · intro hs
    by_contra hge
    rw [List.getElem?_eq_none (Nat.le_of_not_lt hge)] at hs
    simp at hs
  · intro hlt
    rw [List.getElem?_eq_getElem hlt]
    rfl

namespace TM

theorem setFocusedTriangle_focusedTriangle (st : State) (idx : Option ℕ) :
    (setFocusedTriangle st idx).focusedTriangle = idx := by
  unfold setFocusedTriangle
  rfl

theorem setFocusedTriangle_length (st : State) (idx : Option ℕ) :
    (setFocusedTriangle st idx).triangles.length = st.triangles.length := by
  unfold setFocusedTriangle
  cases st.focusedTriangle <;> cases idx <;> simp [length_listModify]

/-- `setFocusedTriangle` only flips `focused` flags: any flag-insensitive
view of any list entry is unchanged. -/
theorem setFocusedTriangle_map {β : Type} (st : State) (idx : Option ℕ) (j : ℕ)
    (g : Triangle → β) (hg : ∀ t b, g { t with focused := b } = g t) :
    (((setFocusedTriangle st idx).triangles[j]?).map g) = ((st.triangles[j]?).map g) := by
  unfold setFocusedTriangle
  cases st.focusedTriangle with
  | none =>
    cases idx with
    | none => rfl
    | some i => exact getElem?_map_listModify _ i j _ g (fun t => hg t true)
  | some f =>
    cases idx with
    | none => exact getElem?_map_listModify _ f j _ g (fun t => hg t false)
    | some i =>
      rw [getElem?_map_listModify _ i j _ g (fun t => hg t true),
        getElem?_map_listModify _ f j _ g (fun t => hg t false)]

end TM

namespace App

theorem focusTriangle_length (st : State) (i : ℤ) :
    (focusTriangle st i).triangles.length = st.triangles.length := by
  unfold focusTriangle
  split_ifs <;> simp [length_listModify]

theorem focusTriangle_triangleCount (st : State) (i : ℤ) :
    (focusTriangle st i).triangleCount = st.triangleCount := by
  unfold focusTriangle
  split_ifs <;> rfl

theorem focusTriangle_nextTriangleId (st : State) (i : ℤ) :
    (focusTriangle st i).nextTriangleId = st.nextTriangleId := by
  unfold focusTriangle
  split_ifs <;> rfl

theorem clearSelected_length (l : List Tri) (n : ℕ) :
    (clearSelected l n).length = l.length := by
  induction l generalizing n with
  | nil => cases n <;> rfl
  | cons t ts ih =>
    cases n with
    | zero => rfl
    | succ m => simp [clearSelected, ih]

theorem selectTriangle_length (st : State) (i : ℤ) (c : Bool) :
    (selectTriangle st i c).triangles.length = st.triangles.length := by
  unfold selectTriangle
  split_ifs <;> cases c <;> simp [length_listModify, clearSelected_length, selectTriangle]

theorem selectTriangle_triangleCount (st : State) (i : ℤ) (c : Bool) :
    (selectTriangle st i c).triangleCount = st.triangleCount := by
  unfold selectTriangle
  split_ifs <;> rfl

theorem selectTriangle_nextTriangleId (st : State) (i : ℤ) (c : Bool) :
    (selectTriangle st i c).nextTriangleId = st.nextTriangleId := by
  unfold selectTriangle
  split_ifs <;> rfl

theorem addTriangle_at_cap (st : State) (a b c d e f : ℝ) (p : Option ℕ)
    (ps : Option (Fin 3)) (h : st.triangleCount ≥ MAX_TRIANGLES) :
    addTriangle st a b c d e f p ps = (none, st) := by
  unfold addTriangle
  rw [if_pos h]

theorem addTriangle_spec (st : State) (a b c d e f : ℝ) (p : Option ℕ)
    (ps : Option (Fin 3)) (h : st.triangleCount < MAX_TRIANGLES) :
    (addTriangle st a b c d e f p ps).1 =
      some (Tri.make st.nextTriangleId a b c d e f p ps) ∧
    (addTriangle st a b c d e f p ps).2.triangleCount = st.triangleCount + 1 ∧
    (addTriangle st a b c d e f p ps).2.nextTriangleId = st.nextTriangleId + 1 ∧
    (addTriangle st a b c d e f p ps).2.triangles.length = st.triangles.length + 1 := by
  unfold addTriangle
  rw [if_neg (not_le.mpr h)]
  refine ⟨rfl, rfl, ?_, ?_⟩
  · by_cases hz : st.triangleCount = 0 <;>
      simp [hz, focusTriangle_nextTriangleId]
  · by_cases hz : st.triangleCount = 0 <;>
      cases p <;> cases ps <;>
      simp [hz, focusTriangle_length, length_listModify]

/-- Counts, ids and length through a successful `createAdjacentTriangle`:
there is no reuse check, so whenever the source index is valid and there is
capacity, a fresh triangle (with the next id) is created and the count
increases. -/
theorem createAdjacentTriangle_spec (st : State) (tIdx : ℕ) (side : Fin 3)
    (h1 : (st.triangles[tIdx]?).isSome) (h2 : st.triangleCount < MAX_TRIANGLES) :
    (createAdjacentTriangle st tIdx side).1.map (fun tr => tr.id) =
      some st.nextTriangleId ∧
    (createAdjacentTriangle st tIdx side).2.triangleCount = st.triangleCount + 1 ∧
    (createAdjacentTriangle st tIdx side).2.nextTriangleId = st.nextTriangleId + 1 ∧
    (createAdjacentTriangle st tIdx side).2.triangles.length = st.triangles.length + 1 := by
  obtain ⟨t, ht⟩ := Option.isSome_iff_exists.mp h1
  unfold createAdjacentTriangle
  rw [ht]
  rcases hadd : addTriangle st (adjacentNewVertices t side).1
      (adjacentNewVertices t side).2.1 (adjacentNewVertices t side).2.2.1
      (adjacentNewVertices t side).2.2.2.1 (adjacentNewVertices t side).2.2.2.2.1
      (adjacentNewVertices t side).2.2.2.2.2 (some tIdx) (some side) with ⟨o, st1⟩
  have hspec := addTriangle_spec st (adjacentNewVertices t side).1
      (adjacentNewVertices t side).2.1 (adjacentNewVertices t side).2.2.1
      (adjacentNewVertices t side).2.2.2.1 (adjacentNewVertices t side).2.2.2.2.1
      (adjacentNewVertices t side).2.2.2.2.2 (some tIdx) (some side) h2
  rw [hadd] at hspec
  dsimp only
  rw [hadd]
  obtain ⟨ho, hc, hn, hl⟩ := hspec
  simp only at ho hc hn hl
  subst ho
  cases hr : findRecipSide (Tri.make st.nextTriangleId (adjacentNewVertices t side).1
      (adjacentNewVertices t side).2.1 (adjacentNewVertices t side).2.2.1
      (adjacentNewVertices t side).2.2.2.1 (adjacentNewVertices t side).2.2.2.2.1
      (adjacentNewVertices t side).2.2.2.2.2 (some tIdx) (some side)) t side with
  | none =>
    simp only [hr]
    refine ⟨rfl, ?_, ?_, ?_⟩ <;>
      simp [selectTriangle_triangleCount, focusTriangle_triangleCount, hc,
        selectTriangle_nextTriangleId, focusTriangle_nextTriangleId, hn,
        selectTriangle_length, focusTriangle_length, length_listModify, hl]
  | some ns =>
    simp only [hr]
    refine ⟨rfl, ?_, ?_, ?_⟩ <;>
      simp [selectTriangle_triangleCount, focusTriangle_triangleCount, hc,
        selectTriangle_nextTriangleId, focusTriangle_nextTriangleId, hn,
        selectTriangle_length, focusTriangle_length, length_listModify, hl]

theorem createAdjacentTriangle_at_cap (st : State) (tIdx : ℕ) (side : Fin 3)
    (h : st.triangleCount ≥ MAX_TRIANGLES) :
    createAdjacentTriangle st tIdx side = (none, st) := by
  unfold createAdjacentTriangle
  cases ht : st.triangles[tIdx]? with
  | none => rfl
  | some t =>
    dsimp only
    rw [addTriangle_at_cap _ _ _ _ _ _ _ _ _ h]

theorem createInnerTriangle_at_cap (st : State) (tIdx : ℕ) (side : Fin 3)
    (h : st.triangleCount ≥ MAX_TRIANGLES) :
    createInnerTriangle st tIdx side = (none, st) := by
  unfold createInnerTriangle
  cases ht : st.triangles[tIdx]? with
  | none => rfl
  | some t =>
    dsimp only
    rw [addTriangle_at_cap _ _ _ _ _ _ _ _ _ h]

theorem createOuterTriangle_at_cap (st : State) (tIdx : ℕ) (side : Fin 3)
    (h : st.triangleCount ≥ MAX_TRIANGLES) :
    createOuterTriangle st tIdx side = (none, st) := by
  unfold createOuterTriangle
  cases ht : st.triangles[tIdx]? with
  | none => rfl
  | some t =>
    dsimp only
    rw [addTriangle_at_cap _ _ _ _ _ _ _ _ _ h]

end App



/-- C5: once the WebGL mesh holds the configured maximum number of
triangles (10,000), every further creation call — adjacent, inner or outer —
returns the failure value (`null` in the source, `none` here) and leaves the
state entirely unchanged: no triangle added, count unchanged, no links
set. -/
theorem c5_capacity_rejection (st : App.State) (tIdx : ℕ) (side : Fin 3)
    (h : st.triangleCount ≥ App.MAX_TRIANGLES) :
    App.createAdjacentTriangle st tIdx side = (none, st) ∧
    App.createInnerTriangle st tIdx side = (none, st) ∧
    App.createOuterTriangle st tIdx side = (none, st) :=
  ⟨App.createAdjacentTriangle_at_cap st tIdx side h,
   App.createInnerTriangle_at_cap st tIdx side h,
   App.createOuterTriangle_at_cap st tIdx side h⟩

/-- Witness for `c5_capacity_rejection` at a concrete full state. -/
theorem c5_capacity_rejection_witness :
    (App.State.mk [] (-1) (-1) 10000 0 true).triangleCount ≥ App.MAX_TRIANGLES ∧
    App.createAdjacentTriangle (App.State.mk [] (-1) (-1) 10000 0 true) 0 0 =
      (none, App.State.mk [] (-1) (-1) 10000 0 true) :=
  ⟨by decide, (c5_capacity_rejection (App.State.mk [] (-1) (-1) 10000 0 true) 0 0 (by decide)).1⟩

/-- C6: `moveToAdjacentTriangle` (the spec's `navigate`) moves focus to the
focused triangle's neighbor on the chosen side when that neighbor exists and
returns `(none, unchanged state)` when it does not; in both cases the
triangle count is unchanged and no triangle is created. -/
theorem c6_navigate_follows_neighbor (st : TM.State) (e : Fin 3) (f : ℕ)
    (t : TM.Triangle) (hf : st.focusedTriangle = some f)
    (ht : st.triangles[f]? = some t) :
    (TM.moveToAdjacentTriangle st e).2.triangles.length = st.triangles.length ∧
    (match t.neighbors e with
     | some n => (TM.moveToAdjacentTriangle st e).1 = some n ∧
         (TM.moveToAdjacentTriangle st e).2.focusedTriangle = some n
     | none => TM.moveToAdjacentTriangle st e = (none, st)) := by
  unfold TM.moveToAdjacentTriangle
  rw [hf]
  dsimp only
  rw [ht]
  dsimp only
  cases hn : t.neighbors e with
  | none => exact ⟨rfl, rfl⟩
  | some n =>
    exact ⟨TM.setFocusedTriangle_length st (some n), rfl,
      TM.setFocusedTriangle_focusedTriangle st (some n)⟩

/-- Witness for `c6_navigate_follows_neighbor` at a concrete two-triangle
state whose focused triangle has a neighbor on side 0. -/
theorem c6_navigate_follows_neighbor_witness :
    (TM.moveToAdjacentTriangle TM.navState 0).2.triangles.length =
      TM.navState.triangles.length ∧
    (match TM.navTriangleA.neighbors 0 with
     | some n => (TM.moveToAdjacentTriangle TM.navState 0).1 = some n ∧
         (TM.moveToAdjacentTriangle TM.navState 0).2.focusedTriangle = some n
     | none => TM.moveToAdjacentTriangle TM.navState 0 = (none, TM.navState)) :=
  c6_navigate_follows_neighbor TM.navState 0 0 TM.navTriangleA rfl rfl

/-- C1 (code evaluation at the failing input): in the WebGL implementation
`createAdjacentTriangle` has no reuse check, so calling it twice on the seed
triangle's side 0 with no intervening state change creates a second, fresh
triangle: the mesh grows from 1 to 2 and then to 3 triangles, and the two
calls return different triangles (ids 1 and 2). -/
theorem c1_webgl_adjacent_not_idempotent :
    (App.createAdjacentTriangle App.seedState 0 0).2.triangleCount = 2 ∧
    (App.createAdjacentTriangle App.seedState 0 0).1.map (fun tr => tr.id) = some 1 ∧
    (App.createAdjacentTriangle
      (App.createAdjacentTriangle App.seedState 0 0).2 0 0).2.triangleCount = 3 ∧
    (App.createAdjacentTriangle
      (App.createAdjacentTriangle App.seedState 0 0).2 0 0).1.map (fun tr => tr.id) =
      some 2 := by
  have hc0 : App.seedState.triangleCount = 1 := rfl
  have hn0 : App.seedState.nextTriangleId = 1 := rfl
  have hl0 : App.seedState.triangles.length = 1 := rfl
  have h0a : (App.seedState.triangles[0]?).isSome := rfl
  have h0b : App.seedState.triangleCount < App.MAX_TRIANGLES := by
    rw [hc0]; decide
  obtain ⟨hid1, hc1, hn1, hl1⟩ := App.createAdjacentTriangle_spec App.seedState 0 0 h0a h0b
  have h1a : ((App.createAdjacentTriangle App.seedState 0 0).2.triangles[0]?).isSome := by
    rw [getElem?_isSome_iff, hl1, hl0]
    decide
  have h1b : (App.createAdjacentTriangle App.seedState 0 0).2.triangleCount <
      App.MAX_TRIANGLES := by
    rw [hc1, hc0]; decide
  obtain ⟨hid2, hc2, hn2, hl2⟩ :=
    App.createAdjacentTriangle_spec (App.createAdjacentTriangle App.seedState 0 0).2 0 0 h1a h1b
  refine ⟨by rw [hc1, hc0], by rw [hid1, hn0], by rw [hc2, hc1, hc0], by rw [hid2, hn1, hn0]⟩

/-- C2 (code evaluation at the failing input): the WebGL implementation
performs no degenerate-geometry check.  On a triangle whose side 0 has both
endpoints at the origin (edge length 0), `createAdjacentTriangle` still
returns a triangle and registers it (count grows from 1 to 2): no error is
signaled and the mesh is mutated.  In JavaScript the computed third vertex
is `NaN` (`perpX = 0/0`), i.e. garbage coordinates enter the mesh. -/
theorem c2_degenerate_edge_not_rejected :
    (App.degenState.triangles[0]?).map (fun t => App.getSide t 0) = some (0, 0, 0, 0) ∧
    (App.createAdjacentTriangle App.degenState 0 0).1.map (fun tr => tr.id) = some 1 ∧
    (App.createAdjacentTriangle App.degenState 0 0).2.triangleCount = 2 := by
  have hc0 : App.degenState.triangleCount = 1 := rfl
  have h0a : (App.degenState.triangles[0]?).isSome := rfl
  have h0b : App.degenState.triangleCount < App.MAX_TRIANGLES := by
    rw [hc0]; decide
  obtain ⟨hid1, hc1, hn1, hl1⟩ := App.createAdjacentTriangle_spec App.degenState 0 0 h0a h0b
  exact ⟨rfl, by rw [hid1]; rfl, by rw [hc1, hc0]⟩

/-- The creation path of `TriangleManager.createAdjacentTriangle` (no
existing neighbor): the new triangle is appended at the end of the list and
focused, and its neighbor table is empty except for the reciprocal side
(when `findAdjacentSide` finds one), which points back at the source
triangle. -/
theorem TM.createAdjacentTriangle_create_spec (st : TM.State) (tIdx : ℕ)
    (e : Fin 3) (t : TM.Triangle) (h1 : st.triangles[tIdx]? = some t)
    (h2 : t.neighbors e = none) :
    (TM.createAdjacentTriangle st tIdx e).1 = some st.triangles.length ∧
    (TM.createAdjacentTriangle st tIdx e).2.focusedTriangle = some st.triangles.length ∧
    ((TM.createAdjacentTriangle st tIdx e).2.triangles[st.triangles.length]?).map
        (fun tr => tr.neighbors) =
      some (match TM.findAdjacentSide
          (TM.Triangle.make (TM.getAdjacentTriangleVertices t e).1
            (TM.getAdjacentTriangleVertices t e).2.1
            (TM.getAdjacentTriangleVertices t e).2.2 (some tIdx) (some e)) t with
        | some r => Function.update (fun _ => none) r (some tIdx)
        | none => fun _ => none) := by
  have htlt : tIdx < st.triangles.length := by
    rcases List.getElem?_eq_some.mp h1 with ⟨hl, _⟩
    exact hl
  have hne : tIdx ≠ st.triangles.length := Nat.ne_of_lt htlt
  unfold TM.createAdjacentTriangle
  rw [h1]
  dsimp only
  rw [h2]
  dsimp only
  set newTriangle := TM.Triangle.make (TM.getAdjacentTriangleVertices t e).1
    (TM.getAdjacentTriangleVertices t e).2.1
    (TM.getAdjacentTriangleVertices t e).2.2 (some tIdx) (some e) with hnew
  have hbase : (TM.addTriangle st newTriangle).triangles[st.triangles.length]? =
      some newTriangle := by
    unfold TM.addTriangle
    exact List.getElem?_concat_length _ _
  cases hr : TM.findAdjacentSide newTriangle t with
  | none =>
    dsimp only
    refine ⟨rfl, TM.setFocusedTriangle_focusedTriangle _ _, ?_⟩
    rw [TM.setFocusedTriangle_map _ _ _ (fun tr => tr.neighbors) (fun tr b => rfl)]
    rw [getElem?_listModify]
    rw [if_neg hne, hbase]
    rfl
  | some r =>
    dsimp only
    refine ⟨rfl, TM.setFocusedTriangle_focusedTriangle _ _, ?_⟩
    rw [TM.setFocusedTriangle_map _ _ _ (fun tr => tr.neighbors) (fun tr b => rfl)]
    rw [getElem?_listModify]
    rw [if_pos rfl]
    rw [getElem?_listModify]
    rw [if_neg hne, hbase]
    rfl

/-- C7: whenever `createAdjacentTriangle` takes its creation path and the
reciprocal-side scan (`findAdjacentSide`) finds a side `r` on the new
triangle, navigating from the newly focused result along `r` returns the
source triangle and moves focus back to it. -/
theorem c7_reciprocal_navigation (st : TM.State) (tIdx : ℕ) (e : Fin 3)
    (t : TM.Triangle) (h1 : st.triangles[tIdx]? = some t)
    (h2 : t.neighbors e = none) :
    (match TM.findAdjacentSide
        (TM.Triangle.make (TM.getAdjacentTriangleVertices t e).1
          (TM.getAdjacentTriangleVertices t e).2.1
          (TM.getAdjacentTriangleVertices t e).2.2 (some tIdx) (some e)) t with
     | some r =>
       (TM.createAdjacentTriangle st tIdx e).1 = some st.triangles.length ∧
       (TM.moveToAdjacentTriangle (TM.createAdjacentTriangle st tIdx e).2 r).1 = some tIdx ∧
       (TM.moveToAdjacentTriangle (TM.createAdjacentTriangle st tIdx e).2 r).2.focusedTriangle =
         some tIdx
     | none => True) := by
  obtain ⟨hres, hfoc, hnb⟩ := TM.createAdjacentTriangle_create_spec st tIdx e t h1 h2
  cases hr : TM.findAdjacentSide
      (TM.Triangle.make (TM.getAdjacentTriangleVertices t e).1
        (TM.getAdjacentTriangleVertices t e).2.1
        (TM.getAdjacentTriangleVertices t e).2.2 (some tIdx) (some e)) t with
  | none => trivial
  | some r =>
    rw [hr] at hnb
    have hex : ∃ tr, (TM.createAdjacentTriangle st tIdx e).2.triangles[st.triangles.length]? =
        some tr ∧ tr.neighbors = Function.update (fun _ => none) r (some tIdx) := by
      cases hx : (TM.createAdjacentTriangle st tIdx e).2.triangles[st.triangles.length]? with
      | none =>
        rw [hx] at hnb
        exact absurd hnb (by simp)
      | some tr =>
        rw [hx] at hnb
        refine ⟨tr, rfl, ?_⟩
        simpa using hnb
    obtain ⟨tr, hx, hnbs⟩ := hex
    refine ⟨hres, ?_⟩
    unfold TM.moveToAdjacentTriangle
    rw [hfoc]
    dsimp only
    rw [hx]
    dsimp only
    rw [hnbs, Function.update_same]
    exact ⟨rfl, TM.setFocusedTriangle_focusedTriangle _ _⟩

/-- Witness for `c7_reciprocal_navigation` at the initial manager state and
its focused seed triangle. -/
theorem c7_reciprocal_navigation_witness :
    (match TM.findAdjacentSide
        (TM.Triangle.make (TM.getAdjacentTriangleVertices TM.seedFocusedTriangle 0).1
          (TM.getAdjacentTriangleVertices TM.seedFocusedTriangle 0).2.1
          (TM.getAdjacentTriangleVertices TM.seedFocusedTriangle 0).2.2 (some 0) (some 0))
        TM.seedFocusedTriangle with
     | some r =>
       (TM.createAdjacentTriangle TM.createInitialTriangle 0 0).1 =
         some TM.createInitialTriangle.triangles.length ∧
       (TM.moveToAdjacentTriangle (TM.createAdjacentTriangle TM.createInitialTriangle 0 0).2 r).1 =
         some 0 ∧
       (TM.moveToAdjacentTriangle
         (TM.createAdjacentTriangle TM.createInitialTriangle 0 0).2 r).2.focusedTriangle =
         some 0
     | none => True) :=
  c7_reciprocal_navigation TM.createInitialTriangle 0 0 TM.seedFocusedTriangle rfl rfl

theorem map_listModify_invariant {α β : Type} (l : List α) (i : ℕ) (f : α → α)
    (g : α → β) (hfg : ∀ a, g (f a) = g a) :
    (listModify l i f).map g = l.map g := by
  apply List.ext_getElem?
  intro n
  rw [List.getElem?_map, List.getElem?_map, getElem?_map_listModify _ _ _ _ _ hfg]

namespace App

theorem clearSelected_map (l : List Tri) (n : ℕ) (h : l.length ≤ n) :
    (clearSelected l n).map (fun t => t.selected) =
      List.replicate l.length false := by
  induction l generalizing n with
  | nil => cases n <;> rfl
  | cons t ts ih =>
    cases n with
    | zero => simp at h
    | succ m =>
      have hm : ts.length ≤ m := by simpa using h
      simp [clearSelected, ih m hm, List.replicate_succ]

theorem replicate_false_set_last (n : ℕ) :
    (List.replicate (n + 1) false).set n true = List.replicate n false ++ [true] := by
  induction n with
  | zero => rfl
  | succ m ih =>
    rw [List.replicate_succ, List.set_cons_succ, ih, List.replicate_succ]
    rfl

/-- The `selected` flags after `selectTriangle(i, true)` on a coherent
in-range state: everything cleared, then exactly index `i` set. -/
theorem selectTriangle_map_selected (st : State) (i : ℕ)
    (hlen : st.triangles.length = st.triangleCount) (hi : i < st.triangleCount) :
    (selectTriangle st (i : ℤ) true).triangles.map (fun t => t.selected) =
      (List.replicate st.triangles.length false).set i true := by
  unfold selectTriangle
  rw [if_pos ⟨Int.ofNat_nonneg i, by exact_mod_cast hi⟩]
  dsimp only
  have hclear : (clearSelected st.triangles st.triangleCount).map (fun t => t.selected) =
      List.replicate st.triangles.length false :=
    clearSelected_map st.triangles st.triangleCount (le_of_eq hlen)
  have hlt : ((i : ℤ).toNat) < (clearSelected st.triangles st.triangleCount).length := by
    rw [clearSelected_length, hlen]
    simpa using hi
  obtain ⟨a, ha⟩ := Option.isSome_iff_exists.mp
    ((getElem?_isSome_iff _ _).mpr hlt)
  unfold listModify
  have hift : (if true = true then clearSelected st.triangles st.triangleCount
      else st.triangles) = clearSelected st.triangles st.triangleCount := if_pos rfl
  rw [hift, ha, List.map_set, hclear]
  have : (i : ℤ).toNat = i := by simp
  rw [this]

end App

namespace App

/-- Shape of a successful `createAdjacentTriangle`: the final state is a
`selectTriangle(newIdx, true)` applied to an intermediate state with one
more triangle than before. -/
theorem createAdjacentTriangle_success_shape (st : State) (tIdx : ℕ) (e : Fin 3)
    (t : Tri) (ht : st.triangles[tIdx]? = some t)
    (hcap : st.triangleCount < MAX_TRIANGLES) :
    ∃ st4 : State,
      (createAdjacentTriangle st tIdx e).1.isSome ∧
      (createAdjacentTriangle st tIdx e).2 =
        selectTriangle st4 (st.triangles.length : ℤ) true ∧
      st4.triangles.length = st.triangles.length + 1 ∧
      st4.triangleCount = st.triangleCount + 1 := by
  unfold createAdjacentTriangle
  rw [ht]
  dsimp only
  rcases hadd : addTriangle st (adjacentNewVertices t e).1
      (adjacentNewVertices t e).2.1 (adjacentNewVertices t e).2.2.1
      (adjacentNewVertices t e).2.2.2.1 (adjacentNewVertices t e).2.2.2.2.1
      (adjacentNewVertices t e).2.2.2.2.2 (some tIdx) (some e) with ⟨o, st1⟩
  have hspec := addTriangle_spec st (adjacentNewVertices t e).1
      (adjacentNewVertices t e).2.1 (adjacentNewVertices t e).2.2.1
      (adjacentNewVertices t e).2.2.2.1 (adjacentNewVertices t e).2.2.2.2.1
      (adjacentNewVertices t e).2.2.2.2.2 (some tIdx) (some e) hcap
  rw [hadd] at hspec
  obtain ⟨ho, hc, hn, hl⟩ := hspec
  simp only at ho hc hn hl
  subst ho
  dsimp only
  cases hr : findRecipSide (Tri.make st.nextTriangleId (adjacentNewVertices t e).1
      (adjacentNewVertices t e).2.1 (adjacentNewVertices t e).2.2.1
      (adjacentNewVertices t e).2.2.2.1 (adjacentNewVertices t e).2.2.2.2.1
      (adjacentNewVertices t e).2.2.2.2.2 (some tIdx) (some e)) t e with
  | none =>
    dsimp only
    refine ⟨_, rfl, rfl, ?_, ?_⟩
    · rw [focusTriangle_length]
      simpa [length_listModify] using hl
    · rw [focusTriangle_triangleCount]
      simpa using hc
  | some ns =>
    dsimp only
    refine ⟨_, rfl, rfl, ?_, ?_⟩
    · rw [focusTriangle_length]
      simpa [length_listModify] using hl
    · rw [focusTriangle_triangleCount]
      simpa using hc

/-- Shape of a successful `createInnerTriangle`. -/
theorem createInnerTriangle_success_shape (st : State) (tIdx : ℕ) (e : Fin 3)
    (t : Tri) (ht : st.triangles[tIdx]? = some t)
    (hcap : st.triangleCount < MAX_TRIANGLES) :
    ∃ st4 : State,
      (createInnerTriangle st tIdx e).1.isSome ∧
      (createInnerTriangle st tIdx e).2 =
        selectTriangle st4 (st.triangles.length : ℤ) true ∧
      st4.triangles.length = st.triangles.length + 1 ∧
      st4.triangleCount = st.triangleCount + 1 := by
  unfold createInnerTriangle
  rw [ht]
  dsimp only
  rcases hadd : addTriangle st (getSide t e).1 (getSide t e).2.1 (getSide t e).2.2.1
      (getSide t e).2.2.2 t.cx t.cy (some tIdx) (some e) with ⟨o, st1⟩
  have hspec := addTriangle_spec st (getSide t e).1 (getSide t e).2.1
      (getSide t e).2.2.1 (getSide t e).2.2.2 t.cx t.cy (some tIdx) (some e) hcap
  rw [hadd] at hspec
  obtain ⟨ho, hc, hn, hl⟩ := hspec
  simp only at ho hc hn hl
  subst ho
  dsimp only
  refine ⟨_, rfl, rfl, ?_, ?_⟩
  · rw [focusTriangle_length]
    simpa [length_listModify] using hl
  · rw [focusTriangle_triangleCount]
    simpa using hc

/-- Shape of a successful `createOuterTriangle`. -/
theorem createOuterTriangle_success_shape (st : State) (tIdx : ℕ) (e : Fin 3)
    (t : Tri) (ht : st.triangles[tIdx]? = some t)
    (hcap : st.triangleCount < MAX_TRIANGLES) :
    ∃ st4 : State,
      (createOuterTriangle st tIdx e).1.isSome ∧
      (createOuterTriangle st tIdx e).2 =
        selectTriangle st4 (st.triangles.length : ℤ) true ∧
      st4.triangles.length = st.triangles.length + 1 ∧
      st4.triangleCount = st.triangleCount + 1 := by
  unfold createOuterTriangle
  rw [ht]
  dsimp only
  rcases hadd : addTriangle st (outerNewVertices t e).1
      (outerNewVertices t e).2.1 (outerNewVertices t e).2.2.1
      (outerNewVertices t e).2.2.2.1 (outerNewVertices t e).2.2.2.2.1
      (outerNewVertices t e).2.2.2.2.2 (some tIdx) (some e) with ⟨o, st1⟩
  have hspec := addTriangle_spec st (outerNewVertices t e).1
      (outerNewVertices t e).2.1 (outerNewVertices t e).2.2.1
      (outerNewVertices t e).2.2.2.1 (outerNewVertices t e).2.2.2.2.1
      (outerNewVertices t e).2.2.2.2.2 (some tIdx) (some e) hcap
  rw [hadd] at hspec
  obtain ⟨ho, hc, hn, hl⟩ := hspec
  simp only at ho hc hn hl
  subst ho
  dsimp only
  refine ⟨_, rfl, rfl, ?_, ?_⟩
  · rw [focusTriangle_length]
    simpa [length_listModify] using hl
  · rw [focusTriangle_triangleCount]
    simpa using hc

end App

/-- C10: in the WebGL implementation, every successful creation call
(adjacent, inner or outer) rewrites the selection state: every previously
selected triangle is cleared and exactly the newly created triangle (the
last list entry) is selected afterwards. -/
theorem c10_creation_selection_singleton (st : App.State) (tIdx : ℕ) (e : Fin 3)
    (hcl : st.triangleCount = st.triangles.length) :
    (match (App.createAdjacentTriangle st tIdx e).1 with
     | some _ =>
       (App.createAdjacentTriangle st tIdx e).2.triangles.map (fun t => t.selected) =
         List.replicate st.triangles.length false ++ [true]
     | none => True) ∧
    (match (App.createInnerTriangle st tIdx e).1 with
     | some _ =>
       (App.createInnerTriangle st tIdx e).2.triangles.map (fun t => t.selected) =
         List.replicate st.triangles.length false ++ [true]
     | none => True) ∧
    (match (App.createOuterTriangle st tIdx e).1 with
     | some _ =>
       (App.createOuterTriangle st tIdx e).2.triangles.map (fun t => t.selected) =
         List.replicate st.triangles.length false ++ [true]
     | none => True) := by
  refine ⟨?_, ?_, ?_⟩
  · cases ht : st.triangles[tIdx]? with
    | none =>
      unfold App.createAdjacentTriangle
      rw [ht]
      exact trivial
    | some t =>
      by_cases hcap : st.triangleCount < App.MAX_TRIANGLES
      · obtain ⟨st4, hsome, heq, hlen4, hcnt4⟩ :=
          App.createAdjacentTriangle_success_shape st tIdx e t ht hcap
        obtain ⟨x, hx⟩ := Option.isSome_iff_exists.mp hsome
        rw [hx]
        dsimp only
        rw [heq]
        have hlen4' : st4.triangles.length = st4.triangleCount := by
          rw [hlen4, hcnt4, hcl]
        have hi : st.triangles.length < st4.triangleCount := by
          rw [hcnt4, hcl]
          exact Nat.lt_succ_self _
        rw [App.selectTriangle_map_selected st4 st.triangles.length hlen4' hi, hlen4]
        exact App.replicate_false_set_last _
      · rw [App.createAdjacentTriangle_at_cap st tIdx e (Nat.le_of_not_lt hcap)]
        exact trivial
  · cases ht : st.triangles[tIdx]? with
    | none =>
      unfold App.createInnerTriangle
      rw [ht]
      exact trivial
    | some t =>
      by_cases hcap : st.triangleCount < App.MAX_TRIANGLES
      · obtain ⟨st4, hsome, heq, hlen4, hcnt4⟩ :=
          App.createInnerTriangle_success_shape st tIdx e t ht hcap
        obtain ⟨x, hx⟩ := Option.isSome_iff_exists.mp hsome
        rw [hx]
        dsimp only
        rw [heq]
        have hlen4' : st4.triangles.length = st4.triangleCount := by
          rw [hlen4, hcnt4, hcl]
        have hi : st.triangles.length < st4.triangleCount := by
          rw [hcnt4, hcl]
          exact Nat.lt_succ_self _
        rw [App.selectTriangle_map_selected st4 st.triangles.length hlen4' hi, hlen4]
        exact App.replicate_false_set_last _
      · rw [App.createInnerTriangle_at_cap st tIdx e (Nat.le_of_not_lt hcap)]
        exact trivial
  · cases ht : st.triangles[tIdx]? with
    | none =>
      unfold App.createOuterTriangle
      rw [ht]
      exact trivial
    | some t =>
      by_cases hcap : st.triangleCount < App.MAX_TRIANGLES
      · obtain ⟨st4, hsome, heq, hlen4, hcnt4⟩ :=
          App.createOuterTriangle_success_shape st tIdx e t ht hcap
        obtain ⟨x, hx⟩ := Option.isSome_iff_exists.mp hsome
        rw [hx]
        dsimp only
        rw [heq]
        have hlen4' : st4.triangles.length = st4.triangleCount := by
          rw [hlen4, hcnt4, hcl]
        have hi : st.triangles.length < st4.triangleCount := by
          rw [hcnt4, hcl]
          exact Nat.lt_succ_self _
        rw [App.selectTriangle_map_selected st4 st.triangles.length hlen4' hi, hlen4]
        exact App.replicate_false_set_last _
      · rw [App.createOuterTriangle_at_cap st tIdx e (Nat.le_of_not_lt hcap)]
        exact trivial

/-- Witness for `c10_creation_selection_singleton` at the WebGL seed
state. -/
theorem c10_creation_selection_singleton_witness :
    (match (App.createAdjacentTriangle App.seedState 0 0).1 with
     | some _ =>
       (App.createAdjacentTriangle App.seedState 0 0).2.triangles.map (fun t => t.selected) =
         List.replicate App.seedState.triangles.length false ++ [true]
     | none => True) ∧
    (match (App.createInnerTriangle App.seedState 0 0).1 with
     | some _ =>
       (App.createInnerTriangle App.seedState 0 0).2.triangles.map (fun t => t.selected) =
         List.replicate App.seedState.triangles.length false ++ [true]
     | none => True) ∧
    (match (App.createOuterTriangle App.seedState 0 0).1 with
     | some _ =>
       (App.createOuterTriangle App.seedState 0 0).2.triangles.map (fun t => t.selected) =
         List.replicate App.seedState.triangles.length false ++ [true]
     | none => True) :=
  c10_creation_selection_singleton App.seedState 0 0 rfl

/-- Core planar fact behind every derivation rule: placing the third vertex
at the equilateral height above the edge midpoint, along any unit vector
orthogonal to the edge, yields a triangle all of whose side lengths equal
the edge length. -/
theorem equilApexCore (x1 y1 x2 y2 px py : ℝ)
    (hpos : 0 < (x2 - x1) * (x2 - x1) + (y2 - y1) * (y2 - y1))
    (hunit : px ^ 2 + py ^ 2 = 1)
    (horth : px * (x2 - x1) + py * (y2 - y1) = 0) :
    distR x1 y1 x2 y2 = Real.sqrt ((x2 - x1) * (x2 - x1) + (y2 - y1) * (y2 - y1)) ∧
    distR x2 y2
      ((x1 + x2) / 2 + px * (Real.sqrt ((x2 - x1) * (x2 - x1) + (y2 - y1) * (y2 - y1)) * Real.sqrt 3 / 2))
      ((y1 + y2) / 2 + py * (Real.sqrt ((x2 - x1) * (x2 - x1) + (y2 - y1) * (y2 - y1)) * Real.sqrt 3 / 2)) =
      Real.sqrt ((x2 - x1) * (x2 - x1) + (y2 - y1) * (y2 - y1)) ∧
    distR
      ((x1 + x2) / 2 + px * (Real.sqrt ((x2 - x1) * (x2 - x1) + (y2 - y1) * (y2 - y1)) * Real.sqrt 3 / 2))
      ((y1 + y2) / 2 + py * (Real.sqrt ((x2 - x1) * (x2 - x1) + (y2 - y1) * (y2 - y1)) * Real.sqrt 3 / 2))
      x1 y1 =
      Real.sqrt ((x2 - x1) * (x2 - x1) + (y2 - y1) * (y2 - y1)) := by
  set L : ℝ := Real.sqrt ((x2 - x1) * (x2 - x1) + (y2 - y1) * (y2 - y1)) with hL
  have hL2 : L ^ 2 = (x2 - x1) * (x2 - x1) + (y2 - y1) * (y2 - y1) := by
    rw [hL]
    exact Real.sq_sqrt hpos.le
  have hLpos : 0 < L := by
    rw [hL]
    exact Real.sqrt_pos.2 hpos
  have h3 : Real.sqrt 3 ^ 2 = 3 := Real.sq_sqrt (by norm_num)
  have hh2 : (L * Real.sqrt 3 / 2) ^ 2 = 3 * L ^ 2 / 4 := by
    have : (L * Real.sqrt 3 / 2) ^ 2 = L ^ 2 * Real.sqrt 3 ^ 2 / 4 := by ring
    rw [this, h3]
    ring
  refine ⟨?_, ?_, ?_⟩
  · unfold distR
    rw [hL]
    congr 1
    ring
  · unfold distR
    have harg : ((x1 + x2) / 2 + px * (L * Real.sqrt 3 / 2) - x2) ^ 2 +
        ((y1 + y2) / 2 + py * (L * Real.sqrt 3 / 2) - y2) ^ 2 = L ^ 2 := by
      have hexp : ((x1 + x2) / 2 + px * (L * Real.sqrt 3 / 2) - x2) ^ 2 +
          ((y1 + y2) / 2 + py * (L * Real.sqrt 3 / 2) - y2) ^ 2 =
          ((x2 - x1) * (x2 - x1) + (y2 - y1) * (y2 - y1)) / 4 +
          (px ^ 2 + py ^ 2) * (L * Real.sqrt 3 / 2) ^ 2 -
          (L * Real.sqrt 3 / 2) * (px * (x2 - x1) + py * (y2 - y1)) := by
        ring
      rw [hexp, hunit, horth, ← hL2, hh2]
      ring
    rw [harg]
    exact Real.sqrt_sq hLpos.le
  · unfold distR
    have harg : (x1 - ((x1 + x2) / 2 + px * (L * Real.sqrt 3 / 2))) ^ 2 +
        (y1 - ((y1 + y2) / 2 + py * (L * Real.sqrt 3 / 2))) ^ 2 = L ^ 2 := by
      have hexp : (x1 - ((x1 + x2) / 2 + px * (L * Real.sqrt 3 / 2))) ^ 2 +
          (y1 - ((y1 + y2) / 2 + py * (L * Real.sqrt 3 / 2))) ^ 2 =
          ((x2 - x1) * (x2 - x1) + (y2 - y1) * (y2 - y1)) / 4 +
          (px ^ 2 + py ^ 2) * (L * Real.sqrt 3 / 2) ^ 2 +
          (L * Real.sqrt 3 / 2) * (px * (x2 - x1) + py * (y2 - y1)) := by
        ring
      rw [hexp, hunit, horth, ← hL2, hh2]
      ring
    rw [harg]
    exact Real.sqrt_sq hLpos.le

namespace App

/-- A successful adjacent derivation in the WebGL implementation produces an
exactly equilateral vertex triple (in real arithmetic), whichever way the
centroid-aware orientation check resolves, provided the chosen side is
nondegenerate. -/
theorem adjacentNewVertices_equilateral (t : Tri) (e : Fin 3)
    (hpos : 0 < ((getSide t e).2.2.1 - (getSide t e).1) * ((getSide t e).2.2.1 - (getSide t e).1) +
      ((getSide t e).2.2.2 - (getSide t e).2.1) * ((getSide t e).2.2.2 - (getSide t e).2.1)) :
    distR (adjacentNewVertices t e).1 (adjacentNewVertices t e).2.1
        (adjacentNewVertices t e).2.2.1 (adjacentNewVertices t e).2.2.2.1 =
      distR (adjacentNewVertices t e).2.2.1 (adjacentNewVertices t e).2.2.2.1
        (adjacentNewVertices t e).2.2.2.2.1 (adjacentNewVertices t e).2.2.2.2.2 ∧
    distR (adjacentNewVertices t e).2.2.1 (adjacentNewVertices t e).2.2.2.1
        (adjacentNewVertices t e).2.2.2.2.1 (adjacentNewVertices t e).2.2.2.2.2 =
      distR (adjacentNewVertices t e).2.2.2.2.1 (adjacentNewVertices t e).2.2.2.2.2
        (adjacentNewVertices t e).1 (adjacentNewVertices t e).2.1 := by
  set x1 : ℝ := (getSide t e).1 with hx1
  set y1 : ℝ := (getSide t e).2.1 with hy1
  set x2 : ℝ := (getSide t e).2.2.1 with hx2
  set y2 : ℝ := (getSide t e).2.2.2 with hy2
  have hLne : Real.sqrt ((x2 - x1) * (x2 - x1) + (y2 - y1) * (y2 - y1)) ≠ 0 :=
    ne_of_gt (Real.sqrt_pos.2 hpos)
  have hL2 : Real.sqrt ((x2 - x1) * (x2 - x1) + (y2 - y1) * (y2 - y1)) ^ 2 =
      (x2 - x1) * (x2 - x1) + (y2 - y1) * (y2 - y1) := Real.sq_sqrt hpos.le
  unfold adjacentNewVertices
  dsimp only
  rw [← hx1, ← hy1, ← hx2, ← hy2]
  by_cases hf : ((y2 - y1) / Real.sqrt ((x2 - x1) * (x2 - x1) + (y2 - y1) * (y2 - y1))) *
        (t.cx - (x1 + x2) / 2) +
      (-(x2 - x1) / Real.sqrt ((x2 - x1) * (x2 - x1) + (y2 - y1) * (y2 - y1))) *
        (t.cy - (y1 + y2) / 2) > 0
  · simp only [if_pos hf]
    obtain ⟨ha, hb, hc⟩ := equilApexCore x1 y1 x2 y2
      (-((y2 - y1) / Real.sqrt ((x2 - x1) * (x2 - x1) + (y2 - y1) * (y2 - y1))))
      (-(-(x2 - x1) / Real.sqrt ((x2 - x1) * (x2 - x1) + (y2 - y1) * (y2 - y1))))
      hpos
      (by
        have hstep : (-((y2 - y1) / Real.sqrt ((x2 - x1) * (x2 - x1) + (y2 - y1) * (y2 - y1)))) ^ 2 +
            (-(-(x2 - x1) / Real.sqrt ((x2 - x1) * (x2 - x1) + (y2 - y1) * (y2 - y1)))) ^ 2 =
            ((x2 - x1) * (x2 - x1) + (y2 - y1) * (y2 - y1)) /
              Real.sqrt ((x2 - x1) * (x2 - x1) + (y2 - y1) * (y2 - y1)) ^ 2 := by ring
        rw [hstep, hL2]
        exact div_self (ne_of_gt hpos))
      (by ring)
    exact ⟨ha.trans hb.symm, hb.trans hc.symm⟩
  · simp only [if_neg hf]
    obtain ⟨ha, hb, hc⟩ := equilApexCore x1 y1 x2 y2
      ((y2 - y1) / Real.sqrt ((x2 - x1) * (x2 - x1) + (y2 - y1) * (y2 - y1)))
      (-(x2 - x1) / Real.sqrt ((x2 - x1) * (x2 - x1) + (y2 - y1) * (y2 - y1)))
      hpos
      (by
        have hstep : ((y2 - y1) / Real.sqrt ((x2 - x1) * (x2 - x1) + (y2 - y1) * (y2 - y1))) ^ 2 +
            (-(x2 - x1) / Real.sqrt ((x2 - x1) * (x2 - x1) + (y2 - y1) * (y2 - y1))) ^ 2 =
            ((x2 - x1) * (x2 - x1) + (y2 - y1) * (y2 - y1)) /
              Real.sqrt ((x2 - x1) * (x2 - x1) + (y2 - y1) * (y2 - y1)) ^ 2 := by ring
        rw [hstep, hL2]
        exact div_self (ne_of_gt hpos))
      (by ring)
    exact ⟨ha.trans hb.symm, hb.trans hc.symm⟩

end App

namespace App

/-- The WebGL outer derivation also produces an exactly equilateral vertex
triple on a nondegenerate side (fixed-handedness normal, no centroid
check). -/
theorem outerNewVertices_equilateral (t : Tri) (e : Fin 3)
    (hpos : 0 < ((getSide t e).2.2.1 - (getSide t e).1) * ((getSide t e).2.2.1 - (getSide t e).1) +
      ((getSide t e).2.2.2 - (getSide t e).2.1) * ((getSide t e).2.2.2 - (getSide t e).2.1)) :
    distR (outerNewVertices t e).1 (outerNewVertices t e).2.1
        (outerNewVertices t e).2.2.1 (outerNewVertices t e).2.2.2.1 =
      distR (outerNewVertices t e).2.2.1 (outerNewVertices t e).2.2.2.1
        (outerNewVertices t e).2.2.2.2.1 (outerNewVertices t e).2.2.2.2.2 ∧
    distR (outerNewVertices t e).2.2.1 (outerNewVertices t e).2.2.2.1
        (outerNewVertices t e).2.2.2.2.1 (outerNewVertices t e).2.2.2.2.2 =
      distR (outerNewVertices t e).2.2.2.2.1 (outerNewVertices t e).2.2.2.2.2
        (outerNewVertices t e).1 (outerNewVertices t e).2.1 := by
  set x1 : ℝ := (getSide t e).1 with hx1
  set y1 : ℝ := (getSide t e).2.1 with hy1
  set x2 : ℝ := (getSide t e).2.2.1 with hx2
  set y2 : ℝ := (getSide t e).2.2.2 with hy2
  have hL2 : Real.sqrt ((x2 - x1) * (x2 - x1) + (y2 - y1) * (y2 - y1)) ^ 2 =
      (x2 - x1) * (x2 - x1) + (y2 - y1) * (y2 - y1) := Real.sq_sqrt hpos.le
  unfold outerNewVertices
  dsimp only
  rw [← hx1, ← hy1, ← hx2, ← hy2]
  have hout : Real.sqrt ((-(y2 - y1)) ^ 2 + (x2 - x1) ^ 2) =
      Real.sqrt ((x2 - x1) * (x2 - x1) + (y2 - y1) * (y2 - y1)) := by
    congr 1
    ring
  have hside : Real.sqrt ((x2 - x1) ^ 2 + (y2 - y1) ^ 2) =
      Real.sqrt ((x2 - x1) * (x2 - x1) + (y2 - y1) * (y2 - y1)) := by
    congr 1
    ring
  rw [hout, hside]
  obtain ⟨ha, hb, hc⟩ := equilApexCore x1 y1 x2 y2
    (-(y2 - y1) / Real.sqrt ((x2 - x1) * (x2 - x1) + (y2 - y1) * (y2 - y1)))
    ((x2 - x1) / Real.sqrt ((x2 - x1) * (x2 - x1) + (y2 - y1) * (y2 - y1)))
    hpos
    (by
      have hstep : (-(y2 - y1) / Real.sqrt ((x2 - x1) * (x2 - x1) + (y2 - y1) * (y2 - y1))) ^ 2 +
          ((x2 - x1) / Real.sqrt ((x2 - x1) * (x2 - x1) + (y2 - y1) * (y2 - y1))) ^ 2 =
          ((x2 - x1) * (x2 - x1) + (y2 - y1) * (y2 - y1)) /
            Real.sqrt ((x2 - x1) * (x2 - x1) + (y2 - y1) * (y2 - y1)) ^ 2 := by ring
      rw [hstep, hL2]
      exact div_self (ne_of_gt hpos))
    (by ring)
  exact ⟨ha.trans hb.symm, hb.trans hc.symm⟩

end App

/-- Spatial version of the equilateral-apex fact, matching the vector
computation of `Triangle.makeEquilateral`: the perpendicular is taken in the
xy-plane, the height uses the full 3D edge length, and the resulting
triangle is exactly equilateral whenever the edge's xy-projection is
nonzero. -/
theorem equilApexCore3 (p1x p1y p1z p2x p2y p2z : ℝ)
    (hpos : 0 < (p2x - p1x) ^ 2 + (p2y - p1y) ^ 2) :
    (Real.sqrt ((p2x - p1x) ^ 2 + (p2y - p1y) ^ 2 + (p2z - p1z) ^ 2) =
      Real.sqrt
        ((0.5 * (p1x + p2x) +
            Real.sqrt ((p2x - p1x) ^ 2 + (p2y - p1y) ^ 2 + (p2z - p1z) ^ 2) * Real.sqrt 3 / 2 *
              (-(p2y - p1y) / Real.sqrt ((-(p2y - p1y)) ^ 2 + (p2x - p1x) ^ 2 + 0 ^ 2)) - p2x) ^ 2 +
          (0.5 * (p1y + p2y) +
            Real.sqrt ((p2x - p1x) ^ 2 + (p2y - p1y) ^ 2 + (p2z - p1z) ^ 2) * Real.sqrt 3 / 2 *
              ((p2x - p1x) / Real.sqrt ((-(p2y - p1y)) ^ 2 + (p2x - p1x) ^ 2 + 0 ^ 2)) - p2y) ^ 2 +
          (0.5 * (p1z + p2z) +
            Real.sqrt ((p2x - p1x) ^ 2 + (p2y - p1y) ^ 2 + (p2z - p1z) ^ 2) * Real.sqrt 3 / 2 *
              (0 / Real.sqrt ((-(p2y - p1y)) ^ 2 + (p2x - p1x) ^ 2 + 0 ^ 2)) - p2z) ^ 2)) ∧
    (Real.sqrt ((p2x - p1x) ^ 2 + (p2y - p1y) ^ 2 + (p2z - p1z) ^ 2) =
      Real.sqrt
        ((p1x - (0.5 * (p1x + p2x) +
            Real.sqrt ((p2x - p1x) ^ 2 + (p2y - p1y) ^ 2 + (p2z - p1z) ^ 2) * Real.sqrt 3 / 2 *
              (-(p2y - p1y) / Real.sqrt ((-(p2y - p1y)) ^ 2 + (p2x - p1x) ^ 2 + 0 ^ 2)))) ^ 2 +
          (p1y - (0.5 * (p1y + p2y) +
            Real.sqrt ((p2x - p1x) ^ 2 + (p2y - p1y) ^ 2 + (p2z - p1z) ^ 2) * Real.sqrt 3 / 2 *
              ((p2x - p1x) / Real.sqrt ((-(p2y - p1y)) ^ 2 + (p2x - p1x) ^ 2 + 0 ^ 2)))) ^ 2 +
          (p1z - (0.5 * (p1z + p2z) +
            Real.sqrt ((p2x - p1x) ^ 2 + (p2y - p1y) ^ 2 + (p2z - p1z) ^ 2) * Real.sqrt 3 / 2 *
              (0 / Real.sqrt ((-(p2y - p1y)) ^ 2 + (p2x - p1x) ^ 2 + 0 ^ 2)))) ^ 2)) := by
  set PL : ℝ := Real.sqrt ((-(p2y - p1y)) ^ 2 + (p2x - p1x) ^ 2 + 0 ^ 2) with hPL
  set L3 : ℝ := Real.sqrt ((p2x - p1x) ^ 2 + (p2y - p1y) ^ 2 + (p2z - p1z) ^ 2) with hL3
  have hplarg : (-(p2y - p1y)) ^ 2 + (p2x - p1x) ^ 2 + 0 ^ 2 =
      (p2x - p1x) ^ 2 + (p2y - p1y) ^ 2 := by ring
  have hPL2 : PL ^ 2 = (p2x - p1x) ^ 2 + (p2y - p1y) ^ 2 := by
    rw [hPL, Real.sq_sqrt (by positivity), hplarg]
  have hPLpos : 0 < PL := by
    rw [hPL]
    apply Real.sqrt_pos.2
    rw [hplarg]
    exact hpos
  have hL32 : L3 ^ 2 = (p2x - p1x) ^ 2 + (p2y - p1y) ^ 2 + (p2z - p1z) ^ 2 := by
    rw [hL3]
    exact Real.sq_sqrt (by positivity)
  have h3 : Real.sqrt 3 ^ 2 = 3 := Real.sq_sqrt (by norm_num)
  have hH2 : (L3 * Real.sqrt 3 / 2) ^ 2 = 3 * L3 ^ 2 / 4 := by
    have hr : (L3 * Real.sqrt 3 / 2) ^ 2 = L3 ^ 2 * Real.sqrt 3 ^ 2 / 4 := by ring
    rw [hr, h3]
    ring
  have hL3nonneg : 0 ≤ L3 := by
    rw [hL3]
    exact Real.sqrt_nonneg _
  have hratio : ((p2x - p1x) ^ 2 + (p2y - p1y) ^ 2) / PL ^ 2 = 1 := by
    rw [hPL2]
    exact div_self (ne_of_gt hpos)
  constructor
  · have harg : (0.5 * (p1x + p2x) + L3 * Real.sqrt 3 / 2 * (-(p2y - p1y) / PL) - p2x) ^ 2 +
        (0.5 * (p1y + p2y) + L3 * Real.sqrt 3 / 2 * ((p2x - p1x) / PL) - p2y) ^ 2 +
        (0.5 * (p1z + p2z) + L3 * Real.sqrt 3 / 2 * (0 / PL) - p2z) ^ 2 = L3 ^ 2 := by
      have hexp : (0.5 * (p1x + p2x) + L3 * Real.sqrt 3 / 2 * (-(p2y - p1y) / PL) - p2x) ^ 2 +
          (0.5 * (p1y + p2y) + L3 * Real.sqrt 3 / 2 * ((p2x - p1x) / PL) - p2y) ^ 2 +
          (0.5 * (p1z + p2z) + L3 * Real.sqrt 3 / 2 * (0 / PL) - p2z) ^ 2 =
          ((p2x - p1x) ^ 2 + (p2y - p1y) ^ 2 + (p2z - p1z) ^ 2) / 4 +
            (((p2x - p1x) ^ 2 + (p2y - p1y) ^ 2) / PL ^ 2) * (L3 * Real.sqrt 3 / 2) ^ 2 := by
        ring
      rw [hexp, hratio, hH2, ← hL32]
      ring
    rw [harg, Real.sqrt_sq hL3nonneg]
  · have harg : (p1x - (0.5 * (p1x + p2x) + L3 * Real.sqrt 3 / 2 * (-(p2y - p1y) / PL))) ^ 2 +
        (p1y - (0.5 * (p1y + p2y) + L3 * Real.sqrt 3 / 2 * ((p2x - p1x) / PL))) ^ 2 +
        (p1z - (0.5 * (p1z + p2z) + L3 * Real.sqrt 3 / 2 * (0 / PL))) ^ 2 = L3 ^ 2 := by
      have hexp : (p1x - (0.5 * (p1x + p2x) + L3 * Real.sqrt 3 / 2 * (-(p2y - p1y) / PL))) ^ 2 +
          (p1y - (0.5 * (p1y + p2y) + L3 * Real.sqrt 3 / 2 * ((p2x - p1x) / PL))) ^ 2 +
          (p1z - (0.5 * (p1z + p2z) + L3 * Real.sqrt 3 / 2 * (0 / PL))) ^ 2 =
          ((p2x - p1x) ^ 2 + (p2y - p1y) ^ 2 + (p2z - p1z) ^ 2) / 4 +
            (((p2x - p1x) ^ 2 + (p2y - p1y) ^ 2) / PL ^ 2) * (L3 * Real.sqrt 3 / 2) ^ 2 := by
        ring
      rw [hexp, hratio, hH2, ← hL32]
      ring
    rw [harg, Real.sqrt_sq hL3nonneg]

namespace TM

/-- Every triangle that goes through the `Triangle` constructor is exactly
equilateral (in real arithmetic), whatever third vertex was supplied,
provided the first edge's xy-projection is nonzero. -/
theorem makeEquilateral_equilateral (a b c : V3)
    (hpos : 0 < (b.x - a.x) ^ 2 + (b.y - a.y) ^ 2) :
    dist3 (makeEquilateral a b c).1 (makeEquilateral a b c).2.1 =
      dist3 (makeEquilateral a b c).2.1 (makeEquilateral a b c).2.2 ∧
    dist3 (makeEquilateral a b c).2.1 (makeEquilateral a b c).2.2 =
      dist3 (makeEquilateral a b c).2.2 (makeEquilateral a b c).1 := by
  obtain ⟨h1, h2⟩ := equilApexCore3 a.x a.y a.z b.x b.y b.z hpos
  exact ⟨h1, h1.symm.trans h2⟩

end TM

/-- C9: the `Triangle` constructor's vertex normalization depends only on
the first two input vertices — the supplied third vertex is discarded — and
the recomputed third vertex sits exactly at the equilateral height
`|v0v1|·√3/2` above the midpoint of `v0v1`, orthogonally to the edge, on
the fixed counterclockwise side (positive xy cross product with the edge
direction). -/
theorem c9_makeEquilateral_recomputes_third (a b c c' : TM.V3)
    (h : ¬(b.x = a.x ∧ b.y = a.y)) :
    TM.makeEquilateral a b c = TM.makeEquilateral a b c' ∧
    (TM.makeEquilateral a b c).1 = a ∧
    (TM.makeEquilateral a b c).2.1 = b ∧
    TM.dist3 (TM.V3.smul 0.5 (TM.V3.add a b)) (TM.makeEquilateral a b c).2.2 =
      TM.dist3 a b * Real.sqrt 3 / 2 ∧
    ((TM.makeEquilateral a b c).2.2.x - (TM.V3.smul 0.5 (TM.V3.add a b)).x) * (b.x - a.x) +
      ((TM.makeEquilateral a b c).2.2.y - (TM.V3.smul 0.5 (TM.V3.add a b)).y) * (b.y - a.y) +
      ((TM.makeEquilateral a b c).2.2.z - (TM.V3.smul 0.5 (TM.V3.add a b)).z) * (b.z - a.z) = 0 ∧
    0 < (b.x - a.x) * ((TM.makeEquilateral a b c).2.2.y - (TM.V3.smul 0.5 (TM.V3.add a b)).y) -
      (b.y - a.y) * ((TM.makeEquilateral a b c).2.2.x - (TM.V3.smul 0.5 (TM.V3.add a b)).x) := by
  have hpos : 0 < (b.x - a.x) ^ 2 + (b.y - a.y) ^ 2 := by
    rcases not_and_or.mp h with hx | hy
    · exact add_pos_of_pos_of_nonneg (pow_two_pos_of_ne_zero (sub_ne_zero.2 hx)) (sq_nonneg _)
    · exact add_pos_of_nonneg_of_pos (sq_nonneg _) (pow_two_pos_of_ne_zero (sub_ne_zero.2 hy))
  have hplarg : (-(b.y - a.y)) ^ 2 + (b.x - a.x) ^ 2 + 0 ^ 2 =
      (b.x - a.x) ^ 2 + (b.y - a.y) ^ 2 := by ring
  set PL : ℝ := Real.sqrt ((-(b.y - a.y)) ^ 2 + (b.x - a.x) ^ 2 + 0 ^ 2) with hPL
  set L3 : ℝ := Real.sqrt ((b.x - a.x) ^ 2 + (b.y - a.y) ^ 2 + (b.z - a.z) ^ 2) with hL3
  have hPL2 : PL ^ 2 = (b.x - a.x) ^ 2 + (b.y - a.y) ^ 2 := by
    rw [hPL, Real.sq_sqrt (by positivity), hplarg]
  have hPLpos : 0 < PL := by
    rw [hPL]
    apply Real.sqrt_pos.2
    rw [hplarg]
    exact hpos
  have hL3pos : 0 < L3 := by
    rw [hL3]
    apply Real.sqrt_pos.2
    nlinarith [sq_nonneg (b.z - a.z)]
  have hratio : ((b.x - a.x) ^ 2 + (b.y - a.y) ^ 2) / PL ^ 2 = 1 := by
    rw [hPL2]
    exact div_self (ne_of_gt hpos)
  have hHnonneg : 0 ≤ L3 * Real.sqrt 3 / 2 := by positivity
  refine ⟨rfl, rfl, rfl, ?_, ?_, ?_⟩
  · show Real.sqrt _ = _
    have harg : (0.5 * (a.x + b.x) + L3 * Real.sqrt 3 / 2 * (-(b.y - a.y) / PL) -
          0.5 * (a.x + b.x)) ^ 2 +
        (0.5 * (a.y + b.y) + L3 * Real.sqrt 3 / 2 * ((b.x - a.x) / PL) -
          0.5 * (a.y + b.y)) ^ 2 +
        (0.5 * (a.z + b.z) + L3 * Real.sqrt 3 / 2 * (0 / PL) -
          0.5 * (a.z + b.z)) ^ 2 = (L3 * Real.sqrt 3 / 2) ^ 2 := by
      have hexp : (0.5 * (a.x + b.x) + L3 * Real.sqrt 3 / 2 * (-(b.y - a.y) / PL) -
            0.5 * (a.x + b.x)) ^ 2 +
          (0.5 * (a.y + b.y) + L3 * Real.sqrt 3 / 2 * ((b.x - a.x) / PL) -
            0.5 * (a.y + b.y)) ^ 2 +
          (0.5 * (a.z + b.z) + L3 * Real.sqrt 3 / 2 * (0 / PL) -
            0.5 * (a.z + b.z)) ^ 2 =
          (((b.x - a.x) ^ 2 + (b.y - a.y) ^ 2) / PL ^ 2) * (L3 * Real.sqrt 3 / 2) ^ 2 := by
        ring
      rw [hexp, hratio, one_mul]
    exact (congrArg Real.sqrt harg).trans (Real.sqrt_sq hHnonneg)
  · show (0.5 * (a.x + b.x) + L3 * Real.sqrt 3 / 2 * (-(b.y - a.y) / PL) -
        0.5 * (a.x + b.x)) * (b.x - a.x) +
      (0.5 * (a.y + b.y) + L3 * Real.sqrt 3 / 2 * ((b.x - a.x) / PL) -
        0.5 * (a.y + b.y)) * (b.y - a.y) +
      (0.5 * (a.z + b.z) + L3 * Real.sqrt 3 / 2 * (0 / PL) -
        0.5 * (a.z + b.z)) * (b.z - a.z) = 0
    ring
  · show 0 < (b.x - a.x) * (0.5 * (a.y + b.y) + L3 * Real.sqrt 3 / 2 * ((b.x - a.x) / PL) -
        0.5 * (a.y + b.y)) - (b.y - a.y) * (0.5 * (a.x + b.x) +
        L3 * Real.sqrt 3 / 2 * (-(b.y - a.y) / PL) - 0.5 * (a.x + b.x))
    have hcross : (b.x - a.x) * (0.5 * (a.y + b.y) + L3 * Real.sqrt 3 / 2 * ((b.x - a.x) / PL) -
        0.5 * (a.y + b.y)) - (b.y - a.y) * (0.5 * (a.x + b.x) +
        L3 * Real.sqrt 3 / 2 * (-(b.y - a.y) / PL) - 0.5 * (a.x + b.x)) =
        (L3 * Real.sqrt 3 / 2) * (((b.x - a.x) ^ 2 + (b.y - a.y) ^ 2) / PL) := by
      ring
    rw [hcross]
    have h3pos : (0 : ℝ) < Real.sqrt 3 := Real.sqrt_pos.2 (by norm_num)
    exact mul_pos (by positivity) (div_pos hpos hPLpos)

/-- Witness for `c9_makeEquilateral_recomputes_third` at a concrete edge and
two different third vertices. -/
theorem c9_makeEquilateral_recomputes_third_witness :
    TM.makeEquilateral ⟨0, 0, 0⟩ ⟨1, 0, 0⟩ ⟨5, 5, 5⟩ =
      TM.makeEquilateral ⟨0, 0, 0⟩ ⟨1, 0, 0⟩ ⟨7, 8, 9⟩ ∧
    (TM.makeEquilateral ⟨0, 0, 0⟩ ⟨1, 0, 0⟩ (⟨5, 5, 5⟩ : TM.V3)).1 = ⟨0, 0, 0⟩ ∧
    (TM.makeEquilateral ⟨0, 0, 0⟩ ⟨1, 0, 0⟩ (⟨5, 5, 5⟩ : TM.V3)).2.1 = ⟨1, 0, 0⟩ ∧
    TM.dist3 (TM.V3.smul 0.5 (TM.V3.add ⟨0, 0, 0⟩ ⟨1, 0, 0⟩))
        (TM.makeEquilateral ⟨0, 0, 0⟩ ⟨1, 0, 0⟩ (⟨5, 5, 5⟩ : TM.V3)).2.2 =
      TM.dist3 ⟨0, 0, 0⟩ ⟨1, 0, 0⟩ * Real.sqrt 3 / 2 ∧
    ((TM.makeEquilateral ⟨0, 0, 0⟩ ⟨1, 0, 0⟩ (⟨5, 5, 5⟩ : TM.V3)).2.2.x -
        (TM.V3.smul 0.5 (TM.V3.add ⟨0, 0, 0⟩ ⟨1, 0, 0⟩)).x) * ((1 : ℝ) - 0) +
      ((TM.makeEquilateral ⟨0, 0, 0⟩ ⟨1, 0, 0⟩ (⟨5, 5, 5⟩ : TM.V3)).2.2.y -
        (TM.V3.smul 0.5 (TM.V3.add ⟨0, 0, 0⟩ ⟨1, 0, 0⟩)).y) * ((0 : ℝ) - 0) +
      ((TM.makeEquilateral ⟨0, 0, 0⟩ ⟨1, 0, 0⟩ (⟨5, 5, 5⟩ : TM.V3)).2.2.z -
        (TM.V3.smul 0.5 (TM.V3.add ⟨0, 0, 0⟩ ⟨1, 0, 0⟩)).z) * ((0 : ℝ) - 0) = 0 ∧
    0 < ((1 : ℝ) - 0) * ((TM.makeEquilateral ⟨0, 0, 0⟩ ⟨1, 0, 0⟩ (⟨5, 5, 5⟩ : TM.V3)).2.2.y -
        (TM.V3.smul 0.5 (TM.V3.add ⟨0, 0, 0⟩ ⟨1, 0, 0⟩)).y) -
      ((0 : ℝ) - 0) * ((TM.makeEquilateral ⟨0, 0, 0⟩ ⟨1, 0, 0⟩ (⟨5, 5, 5⟩ : TM.V3)).2.2.x -
        (TM.V3.smul 0.5 (TM.V3.add ⟨0, 0, 0⟩ ⟨1, 0, 0⟩)).x) :=
  c9_makeEquilateral_recomputes_third ⟨0, 0, 0⟩ ⟨1, 0, 0⟩ ⟨5, 5, 5⟩ ⟨7, 8, 9⟩
    (fun hc => one_ne_zero hc.1)

theorem equilWithin6_of_eq (ε a b c d e f : ℝ) (hε : 0 ≤ ε)
    (h1 : distR a b c d = distR c d e f) (h2 : distR c d e f = distR e f a b) :
    equilWithin6 ε a b c d e f := by
  unfold equilWithin6
  rw [h1, h2]
  simpa using hε

theorem equilWithin3_of_eq (ε : ℝ) (a b c : TM.V3) (hε : 0 ≤ ε)
    (h1 : TM.dist3 a b = TM.dist3 b c) (h2 : TM.dist3 b c = TM.dist3 c a) :
    TM.equilWithin3 ε a b c := by
  unfold TM.equilWithin3
  rw [h1, h2]
  simpa using hε

theorem mul_self_add_mul_self_pos_of_qne (p q r s : ℚ)
    (h : ¬(p = r ∧ q = s)) :
    0 < ((r : ℝ) - p) * ((r : ℝ) - p) + ((s : ℝ) - q) * ((s : ℝ) - q) := by
  rcases not_and_or.mp h with hx | hy
  · have hne : (r : ℝ) - p ≠ 0 := by
      rw [sub_ne_zero]
      exact_mod_cast Ne.symm hx
    exact add_pos_of_pos_of_nonneg (mul_self_pos.2 hne) (mul_self_nonneg _)
  · have hne : (s : ℝ) - q ≠ 0 := by
      rw [sub_ne_zero]
      exact_mod_cast Ne.symm hy
    exact add_pos_of_nonneg_of_pos (mul_self_nonneg _) (mul_self_pos.2 hne)

theorem sq_add_sq_pos_of_qne (p q r s : ℚ) (h : ¬(r = p ∧ s = q)) :
    0 < ((r : ℝ) - p) ^ 2 + ((s : ℝ) - q) ^ 2 := by
  rcases not_and_or.mp h with hx | hy
  · have hne : (r : ℝ) - p ≠ 0 := by
      rw [sub_ne_zero]
      exact_mod_cast hx
    exact add_pos_of_pos_of_nonneg (pow_two_pos_of_ne_zero hne) (sq_nonneg _)
  · have hne : (s : ℝ) - q ≠ 0 := by
      rw [sub_ne_zero]
      exact_mod_cast hy
    exact add_pos_of_nonneg_of_pos (sq_nonneg _) (pow_two_pos_of_ne_zero hne)

/-- C3 (amended): the WebGL seed triangle satisfies the equilateral
invariant within ε, every triangle the adjacent and outer WebGL derivations
produce from a rational-coordinate triangle with a nondegenerate chosen side
satisfies it, and every triangle built by the Three.js constructor satisfies
it (so all Three.js derivations do).  The WebGL inner derivation is the
exception, refuted separately. -/
theorem c3_equilateral_invariant_amended :
    (match App.seedState.triangles[0]? with
     | some t => equilWithin6 (1 / 10000) t.v0 t.v1 t.v2 t.v3 t.v4 t.v5
     | none => False) ∧
    (∀ (qa qb qc qd qe qf : ℚ) (s : Fin 3),
      ¬((qSide qa qb qc qd qe qf s).1 = (qSide qa qb qc qd qe qf s).2.2.1 ∧
        (qSide qa qb qc qd qe qf s).2.1 = (qSide qa qb qc qd qe qf s).2.2.2) →
      equilWithin6 (1 / 10000)
        (App.adjacentNewVertices
          (App.Tri.make 0 (qa : ℝ) (qb : ℝ) (qc : ℝ) (qd : ℝ) (qe : ℝ) (qf : ℝ) none none) s).1
        (App.adjacentNewVertices
          (App.Tri.make 0 (qa : ℝ) (qb : ℝ) (qc : ℝ) (qd : ℝ) (qe : ℝ) (qf : ℝ) none none) s).2.1
        (App.adjacentNewVertices
          (App.Tri.make 0 (qa : ℝ) (qb : ℝ) (qc : ℝ) (qd : ℝ) (qe : ℝ) (qf : ℝ) none none) s).2.2.1
        (App.adjacentNewVertices
          (App.Tri.make 0 (qa : ℝ) (qb : ℝ) (qc : ℝ) (qd : ℝ) (qe : ℝ) (qf : ℝ) none none) s).2.2.2.1
        (App.adjacentNewVertices
          (App.Tri.make 0 (qa : ℝ) (qb : ℝ) (qc : ℝ) (qd : ℝ) (qe : ℝ) (qf : ℝ) none none) s).2.2.2.2.1
        (App.adjacentNewVertices
          (App.Tri.make 0 (qa : ℝ) (qb : ℝ) (qc : ℝ) (qd : ℝ) (qe : ℝ) (qf : ℝ) none none) s).2.2.2.2.2) ∧
    (∀ (qa qb qc qd qe qf : ℚ) (s : Fin 3),
      ¬((qSide qa qb qc qd qe qf s).1 = (qSide qa qb qc qd qe qf s).2.2.1 ∧
        (qSide qa qb qc qd qe qf s).2.1 = (qSide qa qb qc qd qe qf s).2.2.2) →
      equilWithin6 (1 / 10000)
        (App.outerNewVertices
          (App.Tri.make 0 (qa : ℝ) (qb : ℝ) (qc : ℝ) (qd : ℝ) (qe : ℝ) (qf : ℝ) none none) s).1
        (App.outerNewVertices
          (App.Tri.make 0 (qa : ℝ) (qb : ℝ) (qc : ℝ) (qd : ℝ) (qe : ℝ) (qf : ℝ) none none) s).2.1
        (App.outerNewVertices
          (App.Tri.make 0 (qa : ℝ) (qb : ℝ) (qc : ℝ) (qd : ℝ) (qe : ℝ) (qf : ℝ) none none) s).2.2.1
        (App.outerNewVertices
          (App.Tri.make 0 (qa : ℝ) (qb : ℝ) (qc : ℝ) (qd : ℝ) (qe : ℝ) (qf : ℝ) none none) s).2.2.2.1
        (App.outerNewVertices
          (App.Tri.make 0 (qa : ℝ) (qb : ℝ) (qc : ℝ) (qd : ℝ) (qe : ℝ) (qf : ℝ) none none) s).2.2.2.2.1
        (App.outerNewVertices
          (App.Tri.make 0 (qa : ℝ) (qb : ℝ) (qc : ℝ) (qd : ℝ) (qe : ℝ) (qf : ℝ) none none) s).2.2.2.2.2) ∧
    (∀ (a1 a2 a3 b1 b2 b3 : ℚ) (c : TM.V3), ¬(b1 = a1 ∧ b2 = a2) →
      TM.equilWithin3 (1 / 10000)
        (TM.makeEquilateral ⟨(a1 : ℝ), (a2 : ℝ), (a3 : ℝ)⟩ ⟨(b1 : ℝ), (b2 : ℝ), (b3 : ℝ)⟩ c).1
        (TM.makeEquilateral ⟨(a1 : ℝ), (a2 : ℝ), (a3 : ℝ)⟩ ⟨(b1 : ℝ), (b2 : ℝ), (b3 : ℝ)⟩ c).2.1
        (TM.makeEquilateral ⟨(a1 : ℝ), (a2 : ℝ), (a3 : ℝ)⟩ ⟨(b1 : ℝ), (b2 : ℝ), (b3 : ℝ)⟩ c).2.2) := by
  refine ⟨?_, ?_, ?_, ?_⟩
  · have hx : (App.seedState.triangles[0]?).map App.Tri.coords =
        some (-(0.5 * App.TRIANGLE_SIZE), -(0.5 * App.TRIANGLE_SIZE) * 0.577,
          0.5 * App.TRIANGLE_SIZE, -(0.5 * App.TRIANGLE_SIZE) * 0.577, 0,
          0.5 * App.TRIANGLE_SIZE * 1.155) := rfl
    cases hy : App.seedState.triangles[0]? with
    | none => rw [hy] at hx; exact Option.noConfusion hx
    | some t =>
      rw [hy] at hx
      have hco := Option.some.inj hx
      simp only [App.Tri.coords, Prod.mk.injEq] at hco
      obtain ⟨h0, h1, h2, h3, h4, h5⟩ := hco
      dsimp only
      rw [h0, h1, h2, h3, h4, h5]
      unfold equilWithin6 distR App.TRIANGLE_SIZE
      have hA : Real.sqrt ((0.5 * (0.3:ℝ) - -(0.5 * 0.3)) ^ 2 +
          (-(0.5 * 0.3) * 0.577 - -(0.5 * 0.3) * 0.577) ^ 2) = 0.3 := by
        rw [show ((0.5 * (0.3:ℝ) - -(0.5 * 0.3)) ^ 2 +
          (-(0.5 * 0.3) * 0.577 - -(0.5 * 0.3) * 0.577) ^ 2) = 0.3 ^ 2 by norm_num]
        exact Real.sqrt_sq (by norm_num)
      have hCB : ((-(0.5 * (0.3:ℝ)) - 0) ^ 2 + (-(0.5 * 0.3) * 0.577 - 0.5 * 0.3 * 1.155) ^ 2) =
          (((0:ℝ) - 0.5 * 0.3) ^ 2 + (0.5 * 0.3 * 1.155 - -(0.5 * 0.3) * 0.577) ^ 2) := by
        norm_num
      have hBlt : Real.sqrt (((0:ℝ) - 0.5 * 0.3) ^ 2 +
          (0.5 * 0.3 * 1.155 - -(0.5 * 0.3) * 0.577) ^ 2) < 0.3 :=
        (Real.sqrt_lt' (by norm_num)).2 (by norm_num)
      have hBgt : (0.29999 : ℝ) < Real.sqrt (((0:ℝ) - 0.5 * 0.3) ^ 2 +
          (0.5 * 0.3 * 1.155 - -(0.5 * 0.3) * 0.577) ^ 2) :=
        (Real.lt_sqrt (by norm_num)).2 (by norm_num)
      rw [hA, hCB]
      refine ⟨?_, ?_, ?_⟩
      · rw [abs_le]
        constructor <;> linarith
      · simp
      · rw [abs_le]
        constructor <;> linarith
  · intro qa qb qc qd qe qf s hq
    fin_cases s
    · obtain ⟨h1, h2⟩ := App.adjacentNewVertices_equilateral
        (App.Tri.make 0 (qa : ℝ) (qb : ℝ) (qc : ℝ) (qd : ℝ) (qe : ℝ) (qf : ℝ) none none) 0
        (mul_self_add_mul_self_pos_of_qne qa qb qc qd hq)
      exact equilWithin6_of_eq _ _ _ _ _ _ _ (by norm_num) h1 h2
    · obtain ⟨h1, h2⟩ := App.adjacentNewVertices_equilateral
        (App.Tri.make 0 (qa : ℝ) (qb : ℝ) (qc : ℝ) (qd : ℝ) (qe : ℝ) (qf : ℝ) none none) 1
        (mul_self_add_mul_self_pos_of_qne qc qd qe qf hq)
      exact equilWithin6_of_eq _ _ _ _ _ _ _ (by norm_num) h1 h2
    · obtain ⟨h1, h2⟩ := App.adjacentNewVertices_equilateral
        (App.Tri.make 0 (qa : ℝ) (qb : ℝ) (qc : ℝ) (qd : ℝ) (qe : ℝ) (qf : ℝ) none none) 2
        (mul_self_add_mul_self_pos_of_qne qe qf qa qb hq)
      exact equilWithin6_of_eq _ _ _ _ _ _ _ (by norm_num) h1 h2
  · intro qa qb qc qd qe qf s hq
    fin_cases s
    · obtain ⟨h1, h2⟩ := App.outerNewVertices_equilateral
        (App.Tri.make 0 (qa : ℝ) (qb : ℝ) (qc : ℝ) (qd : ℝ) (qe : ℝ) (qf : ℝ) none none) 0
        (mul_self_add_mul_self_pos_of_qne qa qb qc qd hq)
      exact equilWithin6_of_eq _ _ _ _ _ _ _ (by norm_num) h1 h2
    · obtain ⟨h1, h2⟩ := App.outerNewVertices_equilateral
        (App.Tri.make 0 (qa : ℝ) (qb : ℝ) (qc : ℝ) (qd : ℝ) (qe : ℝ) (qf : ℝ) none none) 1
        (mul_self_add_mul_self_pos_of_qne qc qd qe qf hq)
      exact equilWithin6_of_eq _ _ _ _ _ _ _ (by norm_num) h1 h2
    · obtain ⟨h1, h2⟩ := App.outerNewVertices_equilateral
        (App.Tri.make 0 (qa : ℝ) (qb : ℝ) (qc : ℝ) (qd : ℝ) (qe : ℝ) (qf : ℝ) none none) 2
        (mul_self_add_mul_self_pos_of_qne qe qf qa qb hq)
      exact equilWithin6_of_eq _ _ _ _ _ _ _ (by norm_num) h1 h2
  · intro a1 a2 a3 b1 b2 b3 c hq
    obtain ⟨h1, h2⟩ := TM.makeEquilateral_equilateral
      ⟨(a1 : ℝ), (a2 : ℝ), (a3 : ℝ)⟩ ⟨(b1 : ℝ), (b2 : ℝ), (b3 : ℝ)⟩ c
      (sq_add_sq_pos_of_qne a1 a2 b1 b2 hq)
    exact equilWithin3_of_eq _ _ _ _ (by norm_num) h1 h2

/-- C3 (counterexample): the triangle created by the WebGL inner derivation
on side 0 of the seed — vertex sequence edge endpoint, edge endpoint,
parent centroid — is stored in the mesh at index 1 and is *not* equilateral
within tolerance: its first side has length 0.3 while its second side is
shorter than 0.2. -/
theorem c3_webgl_inner_not_equilateral :
    match (App.createInnerTriangle App.seedState 0 0).2.triangles[1]? with
    | some tri => ¬ equilWithin6 (1 / 1000) tri.v0 tri.v1 tri.v2 tri.v3 tri.v4 tri.v5
    | none => False := by
  have hx : ((App.createInnerTriangle App.seedState 0 0).2.triangles[1]?).map App.Tri.coords =
      some (-(0.5 * App.TRIANGLE_SIZE), -(0.5 * App.TRIANGLE_SIZE) * 0.577,
        0.5 * App.TRIANGLE_SIZE, -(0.5 * App.TRIANGLE_SIZE) * 0.577,
        (-(0.5 * App.TRIANGLE_SIZE) + 0.5 * App.TRIANGLE_SIZE + 0) / 3,
        (-(0.5 * App.TRIANGLE_SIZE) * 0.577 + -(0.5 * App.TRIANGLE_SIZE) * 0.577 +
          0.5 * App.TRIANGLE_SIZE * 1.155) / 3) := rfl
  cases hy : (App.createInnerTriangle App.seedState 0 0).2.triangles[1]? with
  | none =>
    rw [hy] at hx
    exact Option.noConfusion hx
  | some tri =>
    rw [hy] at hx
    have hco := Option.some.inj hx
    simp only [App.Tri.coords, Prod.mk.injEq] at hco
    obtain ⟨h0, h1, h2, h3, h4, h5⟩ := hco
    dsimp only
    rw [h0, h1, h2, h3, h4, h5]
    unfold equilWithin6 distR App.TRIANGLE_SIZE
    intro hcontra
    obtain ⟨hc1, -, -⟩ := hcontra
    have hA : Real.sqrt ((0.5 * (0.3:ℝ) - -(0.5 * 0.3)) ^ 2 +
        (-(0.5 * 0.3) * 0.577 - -(0.5 * 0.3) * 0.577) ^ 2) = 0.3 := by
      rw [show ((0.5 * (0.3:ℝ) - -(0.5 * 0.3)) ^ 2 +
        (-(0.5 * 0.3) * 0.577 - -(0.5 * 0.3) * 0.577) ^ 2) = 0.3 ^ 2 by norm_num]
      exact Real.sqrt_sq (by norm_num)
    have hBlt : Real.sqrt (((-(0.5 * (0.3:ℝ)) + 0.5 * 0.3 + 0) / 3 - 0.5 * 0.3) ^ 2 +
        ((-(0.5 * (0.3:ℝ)) * 0.577 + -(0.5 * 0.3) * 0.577 + 0.5 * 0.3 * 1.155) / 3 -
          -(0.5 * 0.3) * 0.577) ^ 2) < 0.2 :=
      (Real.sqrt_lt' (by norm_num)).2 (by norm_num)
    rw [hA] at hc1
    have hub := le_abs_self (0.3 - Real.sqrt (((-(0.5 * (0.3:ℝ)) + 0.5 * 0.3 + 0) / 3 - 0.5 * 0.3) ^ 2 +
        ((-(0.5 * (0.3:ℝ)) * 0.577 + -(0.5 * 0.3) * 0.577 + 0.5 * 0.3 * 1.155) / 3 -
          -(0.5 * 0.3) * 0.577) ^ 2))
    linarith

/-- Witness for `c3_equilateral_invariant_amended`, instantiating the
quantified parts at concrete rational triangles and discharging the
nondegeneracy hypotheses by computation. -/
theorem c3_equilateral_invariant_amended_witness :
    (¬((qSide 0 0 1 0 2 3 0).1 = (qSide 0 0 1 0 2 3 0).2.2.1 ∧
       (qSide 0 0 1 0 2 3 0).2.1 = (qSide 0 0 1 0 2 3 0).2.2.2)) ∧
    equilWithin6 (1 / 10000)
      (App.adjacentNewVertices
        (App.Tri.make 0 ((0 : ℚ) : ℝ) ((0 : ℚ) : ℝ) ((1 : ℚ) : ℝ) ((0 : ℚ) : ℝ)
          ((2 : ℚ) : ℝ) ((3 : ℚ) : ℝ) none none) 0).1
      (App.adjacentNewVertices
        (App.Tri.make 0 ((0 : ℚ) : ℝ) ((0 : ℚ) : ℝ) ((1 : ℚ) : ℝ) ((0 : ℚ) : ℝ)
          ((2 : ℚ) : ℝ) ((3 : ℚ) : ℝ) none none) 0).2.1
      (App.adjacentNewVertices
        (App.Tri.make 0 ((0 : ℚ) : ℝ) ((0 : ℚ) : ℝ) ((1 : ℚ) : ℝ) ((0 : ℚ) : ℝ)
          ((2 : ℚ) : ℝ) ((3 : ℚ) : ℝ) none none) 0).2.2.1
      (App.adjacentNewVertices
        (App.Tri.make 0 ((0 : ℚ) : ℝ) ((0 : ℚ) : ℝ) ((1 : ℚ) : ℝ) ((0 : ℚ) : ℝ)
          ((2 : ℚ) : ℝ) ((3 : ℚ) : ℝ) none none) 0).2.2.2.1
      (App.adjacentNewVertices
        (App.Tri.make 0 ((0 : ℚ) : ℝ) ((0 : ℚ) : ℝ) ((1 : ℚ) : ℝ) ((0 : ℚ) : ℝ)
          ((2 : ℚ) : ℝ) ((3 : ℚ) : ℝ) none none) 0).2.2.2.2.1
      (App.adjacentNewVertices
        (App.Tri.make 0 ((0 : ℚ) : ℝ) ((0 : ℚ) : ℝ) ((1 : ℚ) : ℝ) ((0 : ℚ) : ℝ)
          ((2 : ℚ) : ℝ) ((3 : ℚ) : ℝ) none none) 0).2.2.2.2.2 ∧
    equilWithin6 (1 / 10000)
      (App.outerNewVertices
        (App.Tri.make 0 ((0 : ℚ) : ℝ) ((0 : ℚ) : ℝ) ((1 : ℚ) : ℝ) ((0 : ℚ) : ℝ)
          ((2 : ℚ) : ℝ) ((3 : ℚ) : ℝ) none none) 0).1
      (App.outerNewVertices
        (App.Tri.make 0 ((0 : ℚ) : ℝ) ((0 : ℚ) : ℝ) ((1 : ℚ) : ℝ) ((0 : ℚ) : ℝ)
          ((2 : ℚ) : ℝ) ((3 : ℚ) : ℝ) none none) 0).2.1
      (App.outerNewVertices
        (App.Tri.make 0 ((0 : ℚ) : ℝ) ((0 : ℚ) : ℝ) ((1 : ℚ) : ℝ) ((0 : ℚ) : ℝ)
          ((2 : ℚ) : ℝ) ((3 : ℚ) : ℝ) none none) 0).2.2.1
      (App.outerNewVertices
        (App.Tri.make 0 ((0 : ℚ) : ℝ) ((0 : ℚ) : ℝ) ((1 : ℚ) : ℝ) ((0 : ℚ) : ℝ)
          ((2 : ℚ) : ℝ) ((3 : ℚ) : ℝ) none none) 0).2.2.2.1
      (App.outerNewVertices
        (App.Tri.make 0 ((0 : ℚ) : ℝ) ((0 : ℚ) : ℝ) ((1 : ℚ) : ℝ) ((0 : ℚ) : ℝ)
          ((2 : ℚ) : ℝ) ((3 : ℚ) : ℝ) none none) 0).2.2.2.2.1
      (App.outerNewVertices
        (App.Tri.make 0 ((0 : ℚ) : ℝ) ((0 : ℚ) : ℝ) ((1 : ℚ) : ℝ) ((0 : ℚ) : ℝ)
          ((2 : ℚ) : ℝ) ((3 : ℚ) : ℝ) none none) 0).2.2.2.2.2 ∧
    (¬((1 : ℚ) = 0 ∧ (0 : ℚ) = 0)) ∧
    TM.equilWithin3 (1 / 10000)
      (TM.makeEquilateral ⟨((0 : ℚ) : ℝ), ((0 : ℚ) : ℝ), ((0 : ℚ) : ℝ)⟩
        ⟨((1 : ℚ) : ℝ), ((0 : ℚ) : ℝ), ((0 : ℚ) : ℝ)⟩ ⟨9, 9, 9⟩).1
      (TM.makeEquilateral ⟨((0 : ℚ) : ℝ), ((0 : ℚ) : ℝ), ((0 : ℚ) : ℝ)⟩
        ⟨((1 : ℚ) : ℝ), ((0 : ℚ) : ℝ), ((0 : ℚ) : ℝ)⟩ ⟨9, 9, 9⟩).2.1
      (TM.makeEquilateral ⟨((0 : ℚ) : ℝ), ((0 : ℚ) : ℝ), ((0 : ℚ) : ℝ)⟩
        ⟨((1 : ℚ) : ℝ), ((0 : ℚ) : ℝ), ((0 : ℚ) : ℝ)⟩ ⟨9, 9, 9⟩).2.2 :=
  ⟨by decide,
   c3_equilateral_invariant_amended.2.1 0 0 1 0 2 3 0 (by decide),
   c3_equilateral_invariant_amended.2.2.1 0 0 1 0 2 3 0 (by decide),
   by decide,
   c3_equilateral_invariant_amended.2.2.2 0 0 0 1 0 0 ⟨9, 9, 9⟩ (by decide)⟩

namespace TM

theorem sqrt_nine : Real.sqrt 9 = 3 := by
  rw [show (9 : ℝ) = 3 ^ 2 by norm_num, Real.sqrt_sq (by norm_num)]

theorem sqrt_four : Real.sqrt 4 = 2 := by
  rw [show (4 : ℝ) = 2 ^ 2 by norm_num, Real.sqrt_sq (by norm_num)]

/-- The recomputed apex over the seed's bottom edge sits at height `√3/2`:
this is exactly the seed triangle's own stored third vertex. -/
theorem seed_apex_y :
    (equilThirdVertex seedFocusedTriangle.v0 seedFocusedTriangle.v1).y =
      Real.sqrt 3 / 2 := by
  simp only [seedFocusedTriangle, seedTriangleRaw, Triangle.make, makeEquilateral,
    equilThirdVertex, V3.sub, V3.add, V3.smul, V3.normalize, V3.length]
  norm_num
  rw [sqrt_nine, sqrt_four]
  ring

/-- The reflection vertex `getAdjacentTriangleVertices` asks for on side 0 of
the seed lies at `y = -√3`, below the shared edge. -/
theorem seed_reflection_y :
    (getAdjacentTriangleVertices seedFocusedTriangle 0).2.2.y = -Real.sqrt 3 := by
  simp only [getAdjacentTriangleVertices, seedFocusedTriangle, seedTriangleRaw,
    Triangle.make, makeEquilateral, equilThirdVertex, V3.sub, V3.add, V3.smul,
    V3.normalize, V3.length]
  norm_num
  rw [sqrt_nine, sqrt_four]
  ring

/-- The seed triangle's centroid is the origin (x-coordinate). -/
theorem seed_center_x : seedFocusedTriangle.center.x = 0 := by
  simp only [seedFocusedTriangle, seedTriangleRaw, Triangle.make, makeEquilateral,
    equilThirdVertex, V3.sub, V3.add, V3.smul, V3.normalize, V3.length]
  norm_num

/-- The seed triangle's centroid is the origin (y-coordinate). -/
theorem seed_center_y : seedFocusedTriangle.center.y = 0 := by
  simp only [seedFocusedTriangle, seedTriangleRaw, Triangle.make, makeEquilateral,
    equilThirdVertex, V3.sub, V3.add, V3.smul, V3.normalize, V3.length]
  norm_num
  rw [sqrt_nine, sqrt_four]
  ring

/-- The seed triangle's centroid is the origin (z-coordinate). -/
theorem seed_center_z : seedFocusedTriangle.center.z = 0 := by
  simp only [seedFocusedTriangle, seedTriangleRaw, Triangle.make, makeEquilateral,
    equilThirdVertex, V3.sub, V3.add, V3.smul, V3.normalize, V3.length]
  norm_num

/-- The apex the `Triangle` constructor recomputes over the edge from the
seed's vertex 0 to the seed's centroid lands at `x = -3/4` — on the far left,
nowhere near vertex 1 (which sits at `x = 3/4`). -/
theorem seed_inner_apex_x :
    (equilThirdVertex (seedFocusedTriangle.vertex 0) seedFocusedTriangle.center).x
      = -(3 / 4) := by
  have hAx : (seedFocusedTriangle.vertex 0).x = -(1.5 : ℝ) / 2 := rfl
  have hAy : (seedFocusedTriangle.vertex 0).y = -(1.5 * Real.sqrt 3 / 2) / 3 := rfl
  have hAz : (seedFocusedTriangle.vertex 0).z = 0 := rfl
  simp only [equilThirdVertex, V3.sub, V3.add, V3.smul, V3.normalize, V3.length]
  rw [hAx, hAy, hAz, seed_center_x, seed_center_y, seed_center_z]
  norm_num
  have h3 : Real.sqrt 3 ^ 2 = 3 := Real.sq_sqrt (by norm_num)
  rw [show (9 / 16 : ℝ) + (-(3 / 2 * Real.sqrt 3 / 2) / 3) ^ 2 = 3 / 4 from by
      linear_combination (1 / 16 : ℝ) * h3,
    show (-(3 / 2 * Real.sqrt 3 / 2) / 3) ^ 2 + (9 / 16 : ℝ) = 3 / 4 from by
      linear_combination (1 / 16 : ℝ) * h3]
  have h34 : Real.sqrt (3 / 4 : ℝ) = Real.sqrt 3 / 2 := by
    rw [show (3 / 4 : ℝ) = (Real.sqrt 3 / 2) ^ 2 from by
      rw [div_pow, Real.sq_sqrt (by norm_num : (0 : ℝ) ≤ 3)]; norm_num]
    exact Real.sqrt_sq (by positivity)
  rw [h34]
  have hs : (0 : ℝ) < Real.sqrt 3 := Real.sqrt_pos.2 (by norm_num)
  field_simp
  nlinarith [h3]

/-- What `TriangleManager.createInnerTriangle` actually does on its creation
path (the `innerTriangles[side]` slot empty): appends one triangle whose
stored vertices are the edge vertex, the centroid, and the constructor's
recomputed apex over that pair, links the slot, and focuses the result. -/
theorem createInnerTriangle_create_spec (st : State) (tIdx : ℕ) (e : Fin 3)
    (t : Triangle) (h1 : st.triangles[tIdx]? = some t)
    (h2 : t.innerTriangles e = none) :
    (createInnerTriangle st tIdx e).1 = some st.triangles.length ∧
    (createInnerTriangle st tIdx e).2.focusedTriangle = some st.triangles.length ∧
    (createInnerTriangle st tIdx e).2.triangles.length = st.triangles.length + 1 ∧
    ((createInnerTriangle st tIdx e).2.triangles[st.triangles.length]?).map
        (fun tr => (tr.v0, tr.v1, tr.v2)) =
      some (t.vertex e, t.center, equilThirdVertex (t.vertex e) t.center) ∧
    ((createInnerTriangle st tIdx e).2.triangles[tIdx]?).map
        (fun tr => tr.innerTriangles e) = some (some st.triangles.length) := by
  have htlt : tIdx < st.triangles.length := by
    rcases List.getElem?_eq_some.mp h1 with ⟨hl, _⟩
    exact hl
  have hne : tIdx ≠ st.triangles.length := Nat.ne_of_lt htlt
  unfold createInnerTriangle
  rw [h1]
  dsimp only
  rw [h2]
  dsimp only
  set newTriangle := Triangle.make (getInnerTriangleVertices t e).1
    (getInnerTriangleVertices t e).2.1 (getInnerTriangleVertices t e).2.2
    (some tIdx) (some e) with hnew
  have hbase : (addTriangle st newTriangle).triangles[st.triangles.length]? =
      some newTriangle := by
    unfold addTriangle
    exact List.getElem?_concat_length _ _
  refine ⟨rfl, setFocusedTriangle_focusedTriangle _ _, ?_, ?_, ?_⟩
  · rw [setFocusedTriangle_length, length_listModify]
    unfold addTriangle
    simp
  · rw [setFocusedTriangle_map _ _ _ (fun tr => (tr.v0, tr.v1, tr.v2)) (fun tr b => rfl)]
    rw [getElem?_listModify, if_neg hne, hbase]
    rfl
  · rw [setFocusedTriangle_map _ _ _ (fun tr => tr.innerTriangles e) (fun tr b => rfl)]
    rw [getElem?_listModify, if_pos rfl]
    have hst1 : (addTriangle st newTriangle).triangles[tIdx]? = some t := by
      unfold addTriangle
      rw [List.getElem?_append_left htlt]
      exact h1
    rw [hst1]
    simp [Function.update_same]

/-- The triangle stored by `TriangleManager.createAdjacentTriangle` on its
creation path: the two shared-edge vertices followed by the constructor's
recomputed apex over them — not the reflection that
`getAdjacentTriangleVertices` supplied. -/
theorem createAdjacentTriangle_vertices_spec (st : State) (tIdx : ℕ) (e : Fin 3)
    (t : Triangle) (h1 : st.triangles[tIdx]? = some t)
    (h2 : t.neighbors e = none) :
    ((createAdjacentTriangle st tIdx e).2.triangles[st.triangles.length]?).map
        (fun tr => (tr.v0, tr.v1, tr.v2)) =
      some ((getAdjacentTriangleVertices t e).1,
        (getAdjacentTriangleVertices t e).2.1,
        equilThirdVertex (getAdjacentTriangleVertices t e).1
          (getAdjacentTriangleVertices t e).2.1) := by
  have htlt : tIdx < st.triangles.length := by
    rcases List.getElem?_eq_some.mp h1 with ⟨hl, _⟩
    exact hl
  have hne : tIdx ≠ st.triangles.length := Nat.ne_of_lt htlt
  unfold createAdjacentTriangle
  rw [h1]
  dsimp only
  rw [h2]
  dsimp only
  set newTriangle := Triangle.make (getAdjacentTriangleVertices t e).1
    (getAdjacentTriangleVertices t e).2.1 (getAdjacentTriangleVertices t e).2.2
    (some tIdx) (some e) with hnew
  have hbase : (addTriangle st newTriangle).triangles[st.triangles.length]? =
      some newTriangle := by
    unfold addTriangle
    exact List.getElem?_concat_length _ _
  cases hr : findAdjacentSide newTriangle t with
  | none =>
    dsimp only
    rw [setFocusedTriangle_map _ _ _ (fun tr => (tr.v0, tr.v1, tr.v2)) (fun tr b => rfl)]
    rw [getElem?_listModify, if_neg hne, hbase]
    rfl
  | some r =>
    dsimp only
    rw [setFocusedTriangle_map _ _ _ (fun tr => (tr.v0, tr.v1, tr.v2)) (fun tr b => rfl)]
    rw [getElem?_listModify]
    rw [if_pos rfl]
    rw [getElem?_listModify]
    rw [if_neg hne, hbase]
    rfl

end TM

/-- C4: the claimed adjacent-derivation rule fails.  On side 0 of the seed
triangle, the triangle actually stored by `createAdjacentTriangle` has the
*same three vertices* as the parent (so it shares 3 vertices with it, not
exactly 2): the `Triangle` constructor discards the reflected vertex `V`
supplied by `getAdjacentTriangleVertices` and recomputes the apex on the
fixed counterclockwise side of the shared edge, which is the side the parent
itself lies on.  In particular its third vertex differs from the specified
reflection `V = O + 2·(M − O)`. -/
theorem c4_adjacent_coincides_with_parent :
    match (TM.createAdjacentTriangle TM.createInitialTriangle 0 0).2.triangles[1]? with
    | some tri =>
        tri.v0 = TM.seedFocusedTriangle.v0 ∧
        tri.v1 = TM.seedFocusedTriangle.v1 ∧
        tri.v2 = TM.seedFocusedTriangle.v2 ∧
        tri.v2 ≠ (TM.getAdjacentTriangleVertices TM.seedFocusedTriangle 0).2.2
    | none => False := by
  have hspec := TM.createAdjacentTriangle_vertices_spec TM.createInitialTriangle 0 0
    TM.seedFocusedTriangle rfl rfl
  rw [show TM.createInitialTriangle.triangles.length = 1 from rfl] at hspec
  cases hy : (TM.createAdjacentTriangle TM.createInitialTriangle 0 0).2.triangles[1]? with
  | none =>
    rw [hy] at hspec
    exact Option.noConfusion hspec
  | some tri =>
    rw [hy] at hspec
    have hco := Option.some.inj hspec
    simp only [Prod.mk.injEq] at hco
    obtain ⟨h0, h1v, h2v⟩ := hco
    dsimp only
    refine ⟨h0, h1v, h2v, ?_⟩
    intro heq
    have happ : TM.equilThirdVertex (TM.getAdjacentTriangleVertices TM.seedFocusedTriangle 0).1
        (TM.getAdjacentTriangleVertices TM.seedFocusedTriangle 0).2.1 =
        TM.equilThirdVertex TM.seedFocusedTriangle.v0 TM.seedFocusedTriangle.v1 := rfl
    rw [h2v, happ] at heq
    have hy2 := congrArg TM.V3.y heq
    rw [TM.seed_apex_y, TM.seed_reflection_y] at hy2
    have h3 : (0 : ℝ) < Real.sqrt 3 := Real.sqrt_pos.2 (by norm_num)
    linarith

/-- C8 (amended): what `createInnerTriangle` really stores.  On the creation
path it returns the index of one appended triangle, focuses it, and links
`innerTriangles[side]` — all as claimed — but the stored vertex sequence is
`[A, C, apex(A, C)]`: the edge vertex, the centroid, and the constructor's
recomputed equilateral apex over those two, not the claimed `[A, C, B]`. -/
theorem c8_inner_vertices_amended (st : TM.State) (tIdx : ℕ) (e : Fin 3)
    (t : TM.Triangle) (h1 : st.triangles[tIdx]? = some t)
    (h2 : t.innerTriangles e = none) :
    (TM.createInnerTriangle st tIdx e).1 = some st.triangles.length ∧
    (TM.createInnerTriangle st tIdx e).2.focusedTriangle = some st.triangles.length ∧
    (TM.createInnerTriangle st tIdx e).2.triangles.length = st.triangles.length + 1 ∧
    ((TM.createInnerTriangle st tIdx e).2.triangles[st.triangles.length]?).map
        (fun tr => (tr.v0, tr.v1, tr.v2)) =
      some (t.vertex e, t.center, TM.equilThirdVertex (t.vertex e) t.center) ∧
    ((TM.createInnerTriangle st tIdx e).2.triangles[tIdx]?).map
        (fun tr => tr.innerTriangles e) = some (some st.triangles.length) :=
  TM.createInnerTriangle_create_spec st tIdx e t h1 h2

/-- Witness for `c8_inner_vertices_amended` at the initial manager state and
its focused seed triangle, side 0. -/
theorem c8_inner_vertices_amended_witness :
    (TM.createInnerTriangle TM.createInitialTriangle 0 0).1 =
      some TM.createInitialTriangle.triangles.length ∧
    (TM.createInnerTriangle TM.createInitialTriangle 0 0).2.focusedTriangle =
      some TM.createInitialTriangle.triangles.length ∧
    (TM.createInnerTriangle TM.createInitialTriangle 0 0).2.triangles.length =
      TM.createInitialTriangle.triangles.length + 1 ∧
    ((TM.createInnerTriangle TM.createInitialTriangle 0 0).2.triangles[
        TM.createInitialTriangle.triangles.length]?).map
        (fun tr => (tr.v0, tr.v1, tr.v2)) =
      some (TM.seedFocusedTriangle.vertex 0, TM.seedFocusedTriangle.center,
        TM.equilThirdVertex (TM.seedFocusedTriangle.vertex 0) TM.seedFocusedTriangle.center) ∧
    ((TM.createInnerTriangle TM.createInitialTriangle 0 0).2.triangles[(0 : ℕ)]?).map
        (fun tr => tr.innerTriangles 0) =
      some (some TM.createInitialTriangle.triangles.length) :=
  c8_inner_vertices_amended TM.createInitialTriangle 0 0 TM.seedFocusedTriangle rfl rfl

/-- C8 (counterexample): on side 0 of the seed triangle the inner-derived
triangle stored at index 1 starts with the edge vertex `A` and the centroid
`C` as claimed, but its third vertex is *not* the other edge endpoint
`B = T.vertex[1]` — not even within the manager's tolerance: the stored apex
sits at `x = -3/4` while `B` sits at `x = 3/4`. -/
theorem c8_inner_third_vertex_not_endpoint :
    match (TM.createInnerTriangle TM.createInitialTriangle 0 0).2.triangles[1]? with
    | some tri =>
        tri.v0 = TM.seedFocusedTriangle.vertex 0 ∧
        tri.v1 = TM.seedFocusedTriangle.center ∧
        ¬ TM.verticesEqual tri.v2 (TM.seedFocusedTriangle.vertex 1) ∧
        tri.v2 ≠ TM.seedFocusedTriangle.vertex 1
    | none => False := by
  have hspec := (TM.createInnerTriangle_create_spec TM.createInitialTriangle 0 0
    TM.seedFocusedTriangle rfl rfl).2.2.2.1
  rw [show TM.createInitialTriangle.triangles.length = 1 from rfl] at hspec
  cases hy : (TM.createInnerTriangle TM.createInitialTriangle 0 0).2.triangles[1]? with
  | none =>
    rw [hy] at hspec
    exact Option.noConfusion hspec
  | some tri =>
    rw [hy] at hspec
    have hco := Option.some.inj hspec
    simp only [Prod.mk.injEq] at hco
    obtain ⟨h0, h1v, h2v⟩ := hco
    have hax : tri.v2.x = -(3 / 4) := by
      rw [h2v]
      exact TM.seed_inner_apex_x
    have hbx : (TM.seedFocusedTriangle.vertex 1).x = (1.5 : ℝ) / 2 := rfl
    dsimp only
    refine ⟨h0, h1v, ?_, ?_⟩
    · intro hveq
      unfold TM.verticesEqual at hveq
      obtain ⟨hxlt, -, -⟩ := hveq
      rw [hax, hbx] at hxlt
      rw [show (-(3 / 4 : ℝ)) - 1.5 / 2 = -(3 / 2) by norm_num, abs_neg,
        abs_of_nonneg (by norm_num : (0 : ℝ) ≤ 3 / 2)] at hxlt
      have heps : TM.epsTM = 1 / 10000 := rfl
      rw [heps] at hxlt
      linarith
    · intro heq
      have hx2 := congrArg TM.V3.x heq
      rw [hax, hbx] at hx2
      norm_num at hx2
